import Mathlib

/-!
# Device selection and context lifecycle of `opencl_main.cpp`

A shallow embedding of `select_device`, `load_program`, `setup_kernels`,
`setup_gpu_context` and `~gpu_context` from `src/opencl_main.cpp`.

Conventions of the embedding:

* `cl_int` values are `Int`; they are only compared with zero and passed on,
  never used in arithmetic.
* A nullable OpenCL handle (`cl_program`, `cl_mem`, `cl_kernel`, `cl_context`,
  `cl_command_queue`, `cl_device_id`) is an `Option Nat`; `none` is `nullptr`.
  Handles stored in `device_list` by a successful `clGetDeviceIDs` are
  non-null, so an enumerated device carries a plain `Nat`.
* The OpenCL runtime and the file system are an explicit record of answers
  (`OpenCL`): every return code and every out-parameter the code reads is a
  field of that record, so a failure can be injected at any call.
* Calls with an effect on a resource are recorded, in program order, in a list
  of `CLCall`.
* `assert` is modelled as abortion: the functions that start with assertions
  return `Option`, and `none` is a failed assertion.
* `device_list` has `max_devices = 42` entries. `clGetDeviceIDs` writes at most
  that many handles and stores the number of devices the platform has in
  `num_devices`; the inner loop of `select_device` reads `device_list[j]` for
  every `j < num_devices`. A read with `j ≥ max_devices` is past the end of the
  array: the embedding lets it yield an unspecified device (`Platform.beyond`),
  and every general statement about the loop assumes `OpenCL.in_bounds`, under
  which no such read happens.
-/

namespace MandelbrotOCL

/-- Value of `CL_NONE` in `CL/cl.h`. The code only compares the three
`cl_device_local_mem_type` constants for equality. -/
abbrev CL_NONE : Nat := 0

/-- Value of `CL_LOCAL` in `CL/cl.h`: dedicated local memory. -/
abbrev CL_LOCAL : Nat := 1

/-- Value of `CL_GLOBAL` in `CL/cl.h`: local memory shared with global memory. -/
abbrev CL_GLOBAL : Nat := 2

/-- Resource-affecting OpenCL calls issued by the modelled functions. -/
inductive CLCall where
  | clReleaseProgram (program : Nat)
  | clReleaseMemObject (memobj : Nat)
  | clReleaseKernel (kernel : Nat)
  | clReleaseContext (context : Nat)
  | clReleaseCommandQueue (command_queue : Nat)
  | clReleaseDevice (device : Nat)
  | clCreateContext (device : Nat)
  | clCreateCommandQueue (context : Option Nat) (device : Nat)
  | clCreateProgramWithSource (context : Nat) (sources : List String)
  | clBuildProgram (program : Option Nat) (device : Nat)
  | clGetProgramBuildInfo (program : Option Nat) (device : Nat) (param_value_size : Nat)
      (into_build_log : Bool)
  | clCreateKernel (program : Option Nat) (kernel_name : String)
  | clCreateBuffer (context : Nat) (size : Nat)
  deriving DecidableEq

/-- The handle fields of `struct gpu_context`, with their default initialisers. -/
structure gpu_context where
  frame_size_x : Nat := 0
  frame_size_y : Nat := 0
  program : Option Nat := none
  result_array_buf : Option Nat := none
  kernels : List (Option Nat) := []
  selected_device : Option Nat := none
  context : Option Nat := none
  command_queue : Option Nat := none
  deriving DecidableEq

/-- One entry of `device_list` together with the answers of the three
`clGetDeviceInfo` queries that `select_device` issues for it: each query has a
return code, and the two attribute queries have a value that is meaningful when
the code is zero. -/
structure Device where
  id : Nat
  mem_type_code : Int
  mem_type : Nat
  work_group_code : Int
  work_group_size : Nat
  name_code : Int
  deriving DecidableEq

/-- Number of entries of `device_list` (`max_devices`, lines 118-119). -/
abbrev max_devices : Nat := 42

/-- One entry of `platforms` with the answer of `clGetDeviceIDs` for it. -/
structure Platform where
  /-- return code of `clGetDeviceIDs` -/
  code : Int
  /-- the devices of the platform, in the order the call reports them; their
  number is what the call stores in `num_devices`, and the first `max_devices`
  of them are what it writes to `device_list` -/
  devices : List Device
  /-- what reading `device_list[j]` yields for `j ≥ max_devices`, a slot past
  the end of the array; unspecified, by default a handle on which every query
  fails -/
  beyond : Nat → Device := fun _ =>
    { id := 0, mem_type_code := -33, mem_type := 0, work_group_code := -33,
      work_group_size := 0, name_code := -33 }

/-- The handles `clGetDeviceIDs` writes to `device_list`: the first
`max_devices` devices of the platform. -/
def Platform.device_list (p : Platform) : List Device :=
  p.devices.take max_devices

/-- The values of `device_list[j]` that the inner loop reads, for
`j = 0, .., num_devices - 1`: the written handles, followed by the reads past
the end of the array when `num_devices > max_devices`. -/
def Platform.slots_read (p : Platform) : List Device :=
  p.device_list
    ++ (List.range (p.devices.length - max_devices)).map fun k => p.beyond (max_devices + k)

/-- The platform has no more devices than `device_list` has entries, so the
inner loop reads written slots only. -/
abbrev Platform.in_bounds (p : Platform) : Prop :=
  p.devices.length ≤ max_devices

/-- Answers of the OpenCL runtime and of the file system. -/
structure OpenCL where
  /-- return code of `clGetPlatformIDs(0, nullptr, &num_platforms)` -/
  platform_count_code : Int
  /-- return code of `clGetPlatformIDs(num_platforms, platforms.data(), ..)` -/
  platform_list_code : Int
  /-- the platforms the outer loop of `select_device` visits -/
  platforms : List Platform
  /-- answer of `clCreateContext` for one device: handle and `errcode_ret` -/
  clCreateContext : Nat → Option Nat × Int
  /-- answer of `clCreateCommandQueue` for a context and a device: handle and `errcode_ret` -/
  clCreateCommandQueue : Option Nat → Nat → Option Nat × Int
  /-- content read by `load_source_file`; unreadable files read as empty -/
  load_source_file : String → String
  /-- answer of `clCreateProgramWithSource`: handle and `errcode_ret` -/
  clCreateProgramWithSource : Nat → List String → Option Nat × Int
  /-- return code of `clBuildProgram` -/
  clBuildProgram : Option Nat → Nat → Int
  /-- answer of `clGetProgramBuildInfo(.., 0, nullptr, &log_len)`: return code and `log_len` -/
  build_log_probe : Option Nat → Nat → Int × Nat
  /-- return code of `clGetProgramBuildInfo(.., log_len, build_log, &log_len)` -/
  build_log_fetch : Option Nat → Nat → Nat → Int
  /-- answer of `clCreateKernel`, by the size of `context.kernels` before the call, the
  program and the name: handle and `errcode_ret` -/
  clCreateKernel : Nat → Option Nat → String → Option Nat × Int
  /-- answer of `clCreateBuffer` for a context and a byte size: handle and `errcode_ret` -/
  clCreateBuffer : Nat → Nat → Option Nat × Int
  /-- value of `sizeof(precise_t)`; `precise_t` is declared in `const.h` -/
  sizeof_precise_t : Nat

/-- What a modelled function leaves behind: its return value, the context it
worked on, and the calls it issued. -/
structure Outcome where
  ret : Int
  context : gpu_context
  calls : List CLCall
  deriving DecidableEq

/-- The locals of `select_device` that live across loop iterations, plus the
handles passed to `clReleaseDevice` so far (in call order). -/
structure SelState where
  selected_device : Option Nat
  mem_type : Nat
  max_work_group_size : Nat
  error_code : Int
  released : List Nat
  deriving DecidableEq

/-- Body of the inner loop of `select_device` (lines 136-188) for
`device_list[j] = d`. -/
def scan_device (st : SelState) (d : Device) : SelState :=
  -- if (!context.selected_device) context.selected_device = device_list[j];
  let sel : Nat := st.selected_device.getD d.id
  if d.mem_type_code ≠ 0 then
    { st with
      selected_device := some sel
      error_code := d.mem_type_code
      released := if sel ≠ d.id then st.released ++ [d.id] else st.released }
  else if d.work_group_code ≠ 0 then
    { st with
      selected_device := some sel
      error_code := d.work_group_code
      released := if sel ≠ d.id then st.released ++ [d.id] else st.released }
  else if (st.mem_type ≠ CL_LOCAL ∧ d.mem_type = CL_LOCAL)
      ∨ (d.mem_type = st.mem_type ∧ st.max_work_group_size < d.work_group_size) then
    { selected_device := some d.id
      mem_type := d.mem_type
      max_work_group_size := d.work_group_size
      error_code := d.name_code
      released := st.released ++ [sel] }
  else
    { st with
      selected_device := some sel
      error_code := d.name_code
      released := if sel ≠ d.id then st.released ++ [d.id] else st.released }

/-- The inner loop `for (j = 0; j < num_devices; ++j)`. -/
def scan_devices (st : SelState) (devices : List Device) : SelState :=
  devices.foldl scan_device st

/-- Body of the outer loop of `select_device` (lines 127-189). -/
def scan_platform (st : SelState) (p : Platform) : SelState :=
  if p.code ≠ 0 then { st with error_code := p.code }
  else scan_devices { st with error_code := p.code } p.slots_read

/-- The outer loop `for (i = 0; i < num_platforms; ++i)`. -/
def enumeration_loop (st : SelState) (platforms : List Platform) : SelState :=
  platforms.foldl scan_platform st

/-- State of the locals when the outer loop is entered: `mem_type = CL_NONE`,
`max_work_group_size = 0`, and `error_code` is what the second
`clGetPlatformIDs` returned. -/
def loop_entry (w : OpenCL) (context : gpu_context) : SelState :=
  { selected_device := context.selected_device
    mem_type := CL_NONE
    max_work_group_size := 0
    error_code := w.platform_list_code
    released := [] }

/-- Embedding of `select_device` (lines 96-217). -/
def select_device (w : OpenCL) (context : gpu_context) : Outcome :=
  if w.platform_count_code ≠ 0 then
    { ret := w.platform_count_code, context := context, calls := [] }
  else if w.platform_list_code ≠ 0 then
    { ret := w.platform_list_code, context := context, calls := [] }
  else
    let st := enumeration_loop (loop_entry w context) w.platforms
    let context := { context with selected_device := st.selected_device }
    let calls := st.released.map CLCall.clReleaseDevice
    match st.selected_device with
    | none => { ret := st.error_code, context := context, calls := calls }
    | some dev =>
      let created := w.clCreateContext dev
      let context := { context with context := created.1 }
      if created.2 ≠ 0 then
        { ret := created.2, context := context, calls := calls ++ [CLCall.clCreateContext dev] }
      else
        let queue := w.clCreateCommandQueue created.1 dev
        { ret := queue.2
          context := { context with command_queue := queue.1 }
          calls := calls ++ [CLCall.clCreateContext dev,
                             CLCall.clCreateCommandQueue created.1 dev] }

/-- The devices enumerated over a list of platforms, in platform/device order:
the handles written to `device_list` by every `clGetDeviceIDs` call that
succeeds. -/
def enumerated_of (platforms : List Platform) : List Device :=
  platforms.flatMap fun p => if p.code ≠ 0 then [] else p.device_list

/-- The enumeration sequence of a run of `select_device`: nothing when either
`clGetPlatformIDs` call fails, and otherwise the devices enumerated over the
platforms. -/
def enumerated (w : OpenCL) : List Device :=
  if w.platform_count_code ≠ 0 then []
  else if w.platform_list_code ≠ 0 then []
  else enumerated_of w.platforms

/-- Every platform whose `clGetDeviceIDs` call succeeds fits `device_list`:
the loops of `select_device` never read past the end of the array. -/
abbrev OpenCL.in_bounds (w : OpenCL) : Prop :=
  ∀ p ∈ w.platforms, p.code = 0 → p.in_bounds

/-- The loop of `load_program` over `sources_paths` (lines 234-245), with the
vector `sources` filled so far: `none` is the `return -1` taken when a file
reads as empty, and otherwise the result is the final `sources`. -/
def load_sources (w : OpenCL) (sources : List String) : List String → Option (List String)
  | [] => some sources
  | source_path :: rest =>
    let text := w.load_source_file source_path
    if text = "" then none
    else load_sources w (sources ++ [text]) rest

/-- Embedding of `load_program` (lines 220-290); `none` is a failed `assert`. -/
def load_program (w : OpenCL) (context : gpu_context) (sources_paths : List String) :
    Option Outcome :=
  match context.selected_device, context.context with
  | some dev, some ctx =>
    match load_sources w [] sources_paths with
    | none => some { ret := -1, context := context, calls := [] }
    | some sources =>
      let created := w.clCreateProgramWithSource ctx sources
      let context := { context with program := created.1 }
      let create := CLCall.clCreateProgramWithSource ctx sources
      if created.2 ≠ 0 then
        some { ret := created.2, context := context, calls := [create] }
      else
        let result := w.clBuildProgram created.1 dev
        let build := CLCall.clBuildProgram created.1 dev
        if result ≠ 0 then
          let saved_error_code := result
          let probed := w.build_log_probe created.1 dev
          let probe := CLCall.clGetProgramBuildInfo created.1 dev 0 false
          if probed.1 ≠ 0 then
            some { ret := probed.1, context := context, calls := [create, build, probe] }
          else
            let log_len := probed.2
            let fetched := w.build_log_fetch created.1 dev log_len
            let fetch := CLCall.clGetProgramBuildInfo created.1 dev log_len true
            if fetched ≠ 0 then
              some { ret := fetched, context := context, calls := [create, build, probe, fetch] }
            else
              some { ret := saved_error_code, context := context,
                     calls := [create, build, probe, fetch] }
        else
          some { ret := result, context := context, calls := [create, build] }
  | _, _ => none

/-- The loop of `setup_kernels` over `kernel_names` (lines 302-310): the value
of `result` when the loop is left, `context.kernels`, and the calls issued. -/
def create_kernels (w : OpenCL) (program : Option Nat) (kernels : List (Option Nat))
    (calls : List CLCall) : List String → Int × List (Option Nat) × List CLCall
  | [] => (0, kernels, calls)
  | kernel_name :: rest =>
    let created := w.clCreateKernel kernels.length program kernel_name
    let kernels := kernels ++ [created.1]
    let calls := calls ++ [CLCall.clCreateKernel program kernel_name]
    if created.2 ≠ 0 then (created.2, kernels, calls)
    else create_kernels w program kernels calls rest

/-- Embedding of `setup_kernels` (lines 293-319); `none` is a failed `assert`.
The byte size of the buffer is computed in `size_t` (64 bits). -/
def setup_kernels (w : OpenCL) (context : gpu_context) (kernel_names : List String) :
    Option Outcome :=
  match context.selected_device, context.context, context.command_queue with
  | some _, some ctx, some _ =>
    let looped := create_kernels w context.program context.kernels [] kernel_names
    let context := { context with kernels := looped.2.1 }
    if looped.1 ≠ 0 then
      some { ret := looped.1, context := context, calls := looped.2.2 }
    else
      let frame_size := (context.frame_size_x * context.frame_size_y) % 2 ^ 64
      let size := (frame_size * w.sizeof_precise_t) % 2 ^ 64
      let created := w.clCreateBuffer ctx size
      let context := { context with result_array_buf := created.1 }
      let calls := looped.2.2 ++ [CLCall.clCreateBuffer ctx size]
      if created.2 ≠ 0 then some { ret := created.2, context := context, calls := calls }
      else some { ret := 0, context := context, calls := calls }
  | _, _, _ => none

/-- Embedding of `setup_gpu_context` (lines 321-344): `ret` is `*error`, and
`none` is a failed `assert` in one of the callees. -/
def setup_gpu_context (w : OpenCL) (sources_list kernel_names : List String) (N M : Nat) :
    Option Outcome :=
  let context : gpu_context := { frame_size_x := N, frame_size_y := M }
  let selected := select_device w context
  if selected.ret ≠ 0 then some selected
  else
    match load_program w selected.context sources_list with
    | none => none
    | some loaded =>
      if loaded.ret ≠ 0 then
        some { loaded with calls := selected.calls ++ loaded.calls }
      else
        match setup_kernels w loaded.context kernel_names with
        | none => none
        | some bound =>
          some { bound with calls := selected.calls ++ loaded.calls ++ bound.calls }

/-- Calls issued by one `if (field) clReleaseX(field);` statement. -/
def release_if (release : Nat → CLCall) : Option Nat → List CLCall
  | some handle => [release handle]
  | none => []

/-- Embedding of `~gpu_context` (lines 57-74): the release calls it issues, in
order. -/
def gpu_context.destructor (c : gpu_context) : List CLCall :=
  release_if CLCall.clReleaseProgram c.program
    ++ release_if CLCall.clReleaseMemObject c.result_array_buf
    ++ c.kernels.flatMap (release_if CLCall.clReleaseKernel)
    ++ release_if CLCall.clReleaseContext c.context
    ++ release_if CLCall.clReleaseCommandQueue c.command_queue
    ++ release_if CLCall.clReleaseDevice c.selected_device

/-! ## Vocabulary of the properties -/

/-- Both attribute queries of the device succeed. -/
abbrev Device.viable (d : Device) : Prop :=
  d.mem_type_code = 0 ∧ d.work_group_code = 0

/-- The device's attribute queries succeed and report memory kind `kind`. -/
abbrev Device.has_kind (d : Device) (kind : Nat) : Prop :=
  d.viable ∧ d.mem_type = kind

/-- The replacement test of lines 178-180 for candidate `d` against the running
best attributes of `st`. -/
abbrev displaces (st : SelState) (d : Device) : Prop :=
  (st.mem_type ≠ CL_LOCAL ∧ d.mem_type = CL_LOCAL)
    ∨ (d.mem_type = st.mem_type ∧ st.max_work_group_size < d.work_group_size)

/-- Two loop states that differ at most in `error_code`. -/
def SelState.same (a b : SelState) : Prop :=
  a.selected_device = b.selected_device ∧ a.mem_type = b.mem_type
    ∧ a.max_work_group_size = b.max_work_group_size ∧ a.released = b.released

/-- Position of the device a pass over `devs` ends on when `devs` holds a
dedicated device: the earliest dedicated device of maximal work-group size. -/
def earliest_best_dedicated (devs : List Device) (d : Device) : Prop :=
  ∃ pre post, devs = pre ++ d :: post ∧ d.has_kind CL_LOCAL
    ∧ (∀ x ∈ pre, x.has_kind CL_LOCAL → x.work_group_size < d.work_group_size)
    ∧ (∀ x ∈ post, x.has_kind CL_LOCAL → x.work_group_size ≤ d.work_group_size)

/-- Whether a call is one of the six release calls. -/
def CLCall.is_release : CLCall → Bool
  | .clReleaseProgram _ => true
  | .clReleaseMemObject _ => true
  | .clReleaseKernel _ => true
  | .clReleaseContext _ => true
  | .clReleaseCommandQueue _ => true
  | .clReleaseDevice _ => true
  | _ => false

/-- Number of handle fields and kernel slots of a context that are non-null. -/
def gpu_context.acquired_count (c : gpu_context) : Nat :=
  c.program.toList.length + c.result_array_buf.toList.length
    + (c.kernels.filter Option.isSome).length
    + c.context.toList.length + c.command_queue.toList.length
    + c.selected_device.toList.length

/-- Teardown order as the specification words it: output buffer, kernels,
program, context, command queue, device. -/
def spec_teardown_order (c : gpu_context) : List CLCall :=
  release_if CLCall.clReleaseMemObject c.result_array_buf
    ++ c.kernels.flatMap (release_if CLCall.clReleaseKernel)
    ++ release_if CLCall.clReleaseProgram c.program
    ++ release_if CLCall.clReleaseContext c.context
    ++ release_if CLCall.clReleaseCommandQueue c.command_queue
    ++ release_if CLCall.clReleaseDevice c.selected_device

/-! ## Concrete runs -/

/-- A device whose three queries succeed. -/
def device_ok (id kind work_group_size : Nat) : Device :=
  { id := id, mem_type_code := 0, mem_type := kind, work_group_code := 0,
    work_group_size := work_group_size, name_code := 0 }

/-- A device whose `CL_DEVICE_LOCAL_MEM_TYPE` query fails with `code`. -/
def device_failing (id : Nat) (code : Int) : Device :=
  { id := id, mem_type_code := code, mem_type := 0, work_group_code := 0,
    work_group_size := 0, name_code := 0 }

/-- A runtime in which every call succeeds, with one platform holding
`devices`; the two source files of `main` are non-empty. -/
def runtime_with (devices : List Device) : OpenCL :=
  { platform_count_code := 0
    platform_list_code := 0
    platforms := [{ code := 0, devices := devices }]
    clCreateContext := fun _ => (some 1000, 0)
    clCreateCommandQueue := fun _ _ => (some 1001, 0)
    load_source_file := fun _ => "kernel"
    clCreateProgramWithSource := fun _ _ => (some 1002, 0)
    clBuildProgram := fun _ _ => 0
    build_log_probe := fun _ _ => (0, 16)
    build_log_fetch := fun _ _ _ => 0
    clCreateKernel := fun size _ _ => (some (2000 + size), 0)
    clCreateBuffer := fun _ _ => (some 1003, 0)
    sizeof_precise_t := 8 }

/-- The candidates `[(Shared,100), (Dedicated,10), (Dedicated,50), (Shared,200)]`
with handles 1 to 4. -/
def mixed_devices : List Device :=
  [device_ok 1 CL_GLOBAL 100, device_ok 2 CL_LOCAL 10, device_ok 3 CL_LOCAL 50,
   device_ok 4 CL_GLOBAL 200]

/-- The candidates `[(Shared,100), (Shared,200)]` with handles 1 and 2. -/
def shared_devices : List Device :=
  [device_ok 1 CL_GLOBAL 100, device_ok 2 CL_GLOBAL 200]

/-- A Shared device, a device whose memory-kind query fails, and a Dedicated
device, with handles 1 to 3. -/
def skipped_devices : List Device :=
  [device_ok 1 CL_GLOBAL 100, device_failing 2 (-30), device_ok 3 CL_LOCAL 50]

/-- A device whose memory-kind query fails (handle 7) followed by a Shared
device whose queries succeed (handle 8). -/
def failing_first_devices : List Device :=
  [device_failing 7 (-30), device_ok 8 CL_GLOBAL 64]

/-- Two devices whose memory-kind query fails, with handles 7 and 8. -/
def failing_devices : List Device :=
  [device_failing 7 (-30), device_failing 8 (-30)]

/-- The all-success runtime over the four mixed candidates with a failure
injected at one call: 0 platform listing, 1 context creation, 2 queue
creation, 3 program creation, 4 program build, 5 every kernel creation,
6 buffer creation, 7 every kernel creation but the first, 8 the source file
`kernel.cl` reads as empty. Any other stage injects nothing. -/
def runtime_failing_at (stage : Nat) : OpenCL :=
  match stage with
  | 0 => { runtime_with mixed_devices with platform_count_code := -1001 }
  | 1 => { runtime_with mixed_devices with clCreateContext := fun _ => (none, -5) }
  | 2 => { runtime_with mixed_devices with clCreateCommandQueue := fun _ _ => (none, -5) }
  | 3 => { runtime_with mixed_devices with clCreateProgramWithSource := fun _ _ => (none, -6) }
  | 4 => { runtime_with mixed_devices with clBuildProgram := fun _ _ => -11 }
  | 5 => { runtime_with mixed_devices with clCreateKernel := fun _ _ _ => (none, -46) }
  | 6 => { runtime_with mixed_devices with clCreateBuffer := fun _ _ => (none, -4) }
  | 7 => { runtime_with mixed_devices with
           clCreateKernel := fun size _ _ => if size = 0 then (some 2000, 0) else (none, -46) }
  | 8 => { runtime_with mixed_devices with
           load_source_file := fun path => if path = "kernel.cl" then "" else "#define N" }
  | _ => runtime_with mixed_devices

/-- The source paths of `main`. -/
def main_sources : List String := ["const.h", "kernel.cl"]

/-- The kernel names of `main`. -/
def main_kernels : List String := ["mandelbrot"]

/-- The context `select_device` leaves on the four mixed candidates when every
call succeeds, for the frame of `main`. -/
def selected_context : gpu_context :=
  { frame_size_x := 480, frame_size_y := 640, selected_device := some 3,
    context := some 1000, command_queue := some 1001 }

/-- What `setup_gpu_context` leaves on the four mixed candidates when every
call succeeds, for the sources, kernel and frame of `main`. -/
def main_outcome : Outcome :=
  { ret := 0
    context :=
      { frame_size_x := 480, frame_size_y := 640, program := some 1002,
        result_array_buf := some 1003, kernels := [some 2000], selected_device := some 3,
        context := some 1000, command_queue := some 1001 }
    calls :=
      [CLCall.clReleaseDevice 1, CLCall.clReleaseDevice 2, CLCall.clReleaseDevice 4,
       CLCall.clCreateContext 3, CLCall.clCreateCommandQueue (some 1000) 3,
       CLCall.clCreateProgramWithSource 1000 ["kernel", "kernel"],
       CLCall.clBuildProgram (some 1002) 3, CLCall.clCreateKernel (some 1002) "mandelbrot",
       CLCall.clCreateBuffer 1000 2457600] }

/-- The teardown releases exactly what the context holds: each of the five
single handle fields is released once when it is non-null and not at all when
it is null, every kernel handle is released once per slot that holds it, no
other call is issued, and so the number of calls is the number of non-null
fields and slots. -/
def releases_exactly_acquired (c : gpu_context) (calls : List CLCall) : Prop :=
  (∀ h, calls.count (CLCall.clReleaseProgram h) = if c.program = some h then 1 else 0)
    ∧ (∀ h, calls.count (CLCall.clReleaseMemObject h)
        = if c.result_array_buf = some h then 1 else 0)
    ∧ (∀ h, calls.count (CLCall.clReleaseKernel h) = c.kernels.count (some h))
    ∧ (∀ h, calls.count (CLCall.clReleaseContext h) = if c.context = some h then 1 else 0)
    ∧ (∀ h, calls.count (CLCall.clReleaseCommandQueue h)
        = if c.command_queue = some h then 1 else 0)
    ∧ (∀ h, calls.count (CLCall.clReleaseDevice h)
        = if c.selected_device = some h then 1 else 0)
    ∧ (∀ call ∈ calls, call.is_release = true)
    ∧ calls.length = c.acquired_count

/-! ## The selection loop, one device at a time -/

theorem scan_device_take (st : SelState) (d : Device) (hv : d.viable) (hc : displaces st d) :
    scan_device st d =
      { selected_device := some d.id
        mem_type := d.mem_type
        max_work_group_size := d.work_group_size
        error_code := d.name_code
        released := st.released ++ [st.selected_device.getD d.id] } := by
  obtain ⟨h1, h2⟩ := hv
  unfold displaces at hc
  simp only [scan_device, h1, h2, ne_eq, not_true_eq_false, if_false, hc, if_true]

theorem scan_device_keep (st : SelState) (d : Device) (h : ¬ (d.viable ∧ displaces st d)) :
    (scan_device st d).selected_device = some (st.selected_device.getD d.id)
      ∧ (scan_device st d).mem_type = st.mem_type
      ∧ (scan_device st d).max_work_group_size = st.max_work_group_size
      ∧ (scan_device st d).released =
          if st.selected_device.getD d.id ≠ d.id then st.released ++ [d.id] else st.released := by
  unfold scan_device
  by_cases h1 : d.mem_type_code = 0
  · by_cases h2 : d.work_group_code = 0
    · have hc : ¬ displaces st d := fun hc => h ⟨⟨h1, h2⟩, hc⟩
      unfold displaces at hc
      simp only [h1, h2, ne_eq, not_true_eq_false, if_false, hc]
      simp
    · simp [h1, h2]
  · simp [h1]

theorem scan_devices_nil (st : SelState) : scan_devices st [] = st := rfl

theorem scan_devices_cons (st : SelState) (d : Device) (l : List Device) :
    scan_devices st (d :: l) = scan_devices (scan_device st d) l := rfl

theorem scan_devices_append (st : SelState) (l₁ l₂ : List Device) :
    scan_devices st (l₁ ++ l₂) = scan_devices (scan_devices st l₁) l₂ := by
  simp [scan_devices, List.foldl_append]

theorem scan_devices_snoc (st : SelState) (l : List Device) (d : Device) :
    scan_devices st (l ++ [d]) = scan_device (scan_devices st l) d := by
  simp [scan_devices, List.foldl_append]

theorem SelState.same_refl (a : SelState) : a.same a := ⟨rfl, rfl, rfl, rfl⟩

theorem scan_device_same (a b : SelState) (d : Device) (h : a.same b) :
    (scan_device a d).same (scan_device b d) := by
  obtain ⟨h1, h2, h3, h4⟩ := h
  by_cases hc : d.viable ∧ displaces a d
  · have hc2 : displaces b d := by
      have := hc.2
      unfold displaces at this ⊢
      rw [← h2, ← h3]; exact this
    rw [scan_device_take a d hc.1 hc.2, scan_device_take b d hc.1 hc2]
    exact ⟨rfl, rfl, rfl, by simp [h1, h4]⟩
  · have hc2 : ¬ (d.viable ∧ displaces b d) := by
      intro hb
      apply hc
      refine ⟨hb.1, ?_⟩
      have := hb.2
      unfold displaces at this ⊢
      rw [h2, h3]; exact this
    obtain ⟨a1, a2, a3, a4⟩ := scan_device_keep a d hc
    obtain ⟨b1, b2, b3, b4⟩ := scan_device_keep b d hc2
    refine ⟨?_, ?_, ?_, ?_⟩
    · rw [a1, b1, h1]
    · rw [a2, b2, h2]
    · rw [a3, b3, h3]
    · rw [a4, b4, h1, h4]

theorem scan_devices_same (l : List Device) :
    ∀ a b : SelState, a.same b → (scan_devices a l).same (scan_devices b l) := by
  induction l with
  | nil => intro a b h; exact h
  | cons d l ih =>
    intro a b h
    rw [scan_devices_cons, scan_devices_cons]
    exact ih _ _ (scan_device_same a b d h)

theorem Platform.slots_read_eq (p : Platform) (h : p.in_bounds) :
    p.slots_read = p.device_list := by
  have hz : p.devices.length - max_devices = 0 := Nat.sub_eq_zero_of_le h
  simp [Platform.slots_read, hz]

theorem Platform.device_list_eq (p : Platform) (h : p.in_bounds) :
    p.device_list = p.devices :=
  List.take_of_length_le h

theorem enumeration_loop_same (ps : List Platform) :
    (∀ p ∈ ps, p.code = 0 → p.in_bounds) → ∀ a b : SelState, a.same b →
      (enumeration_loop a ps).same (scan_devices b (enumerated_of ps)) := by
  induction ps with
  | nil => intro _ a b h; exact h
  | cons p ps ih =>
    intro hib a b h
    have hstep : (scan_platform a p).same
        (scan_devices b (if p.code ≠ 0 then [] else p.device_list)) := by
      unfold scan_platform
      by_cases hp : p.code = 0
      · simp only [hp, ne_eq, not_true_eq_false, if_false]
        rw [Platform.slots_read_eq p (hib p (List.mem_cons_self _ _) hp)]
        exact scan_devices_same _ _ _ h
      · simp only [hp, ne_eq, not_false_eq_true, if_true]
        exact h
    have := ih (fun q hq => hib q (List.mem_cons_of_mem _ hq)) _ _ hstep
    rw [← scan_devices_append] at this
    simpa [enumeration_loop, enumerated_of, List.flatMap_cons] using this

/-- An empty enumeration leaves no platform out of bounds. -/
theorem in_bounds_of_enumerated_of_nil (ps : List Platform) (h : enumerated_of ps = []) :
    ∀ p ∈ ps, p.code = 0 → p.in_bounds := by
  intro p hp hcode
  have hnil : p.device_list = [] := by
    have := List.flatMap_eq_nil_iff.1 h p hp
    simpa [hcode] using this
  have hdev : p.devices = [] := by
    rcases List.take_eq_nil_iff.1 hnil with h42 | hd
    · exact absurd h42 (by decide)
    · exact hd
  simp [Platform.in_bounds, hdev]

theorem enumerated_nil_of_count_code (w : OpenCL) (h : w.platform_count_code ≠ 0) :
    enumerated w = [] := by
  simp [enumerated, h]

theorem enumerated_nil_of_list_code (w : OpenCL) (h : w.platform_list_code ≠ 0) :
    enumerated w = [] := by
  simp [enumerated, h]

theorem enumerated_eq (w : OpenCL) (h1 : w.platform_count_code = 0)
    (h2 : w.platform_list_code = 0) : enumerated w = enumerated_of w.platforms := by
  simp [enumerated, h1, h2]

/-- When both `clGetPlatformIDs` calls succeed and no read leaves
`device_list`, the loops of `select_device` leave the locals as one pass over
the enumeration sequence does, up to `error_code`. -/
theorem loop_same_scan (w : OpenCL) (context : gpu_context) (hib : w.in_bounds)
    (h1 : w.platform_count_code = 0) (h2 : w.platform_list_code = 0) :
    (enumeration_loop (loop_entry w context) w.platforms).same
      (scan_devices (loop_entry w context) (enumerated w)) := by
  rw [enumerated_eq w h1 h2]
  exact enumeration_loop_same _ hib _ _ (SelState.same_refl _)

/-- The device handle `select_device` leaves in the context is the one a single
pass over the enumeration sequence selects. -/
theorem select_device_selected (w : OpenCL) (context : gpu_context) (hib : w.in_bounds) :
    (select_device w context).context.selected_device
      = (scan_devices (loop_entry w context) (enumerated w)).selected_device := by
  by_cases h1 : w.platform_count_code = 0
  · by_cases h2 : w.platform_list_code = 0
    · rw [← (loop_same_scan w context hib h1 h2).1]
      simp only [select_device, h1, h2, ne_eq, not_true_eq_false, if_false]
      cases hsel : (enumeration_loop (loop_entry w context) w.platforms).selected_device with
      | none => rfl
      | some dev =>
        simp only
        split <;> rfl
    · rw [enumerated_nil_of_list_code w h2]
      simp [select_device, h1, h2, scan_devices_nil, loop_entry]
  · rw [enumerated_nil_of_count_code w h1]
    simp [select_device, h1, scan_devices_nil, loop_entry]

/-! ## Dedicated local memory dominates -/

/-- A device that does not report `CL_LOCAL` leaves a running best kind other
than `CL_LOCAL`. -/
theorem scan_device_not_local (st : SelState) (d : Device) (hst : st.mem_type ≠ CL_LOCAL)
    (hd : ¬ d.has_kind CL_LOCAL) : (scan_device st d).mem_type ≠ CL_LOCAL := by
  by_cases hc : d.viable ∧ displaces st d
  · rw [scan_device_take st d hc.1 hc.2]
    exact fun h => hd ⟨hc.1, h⟩
  · rw [(scan_device_keep st d hc).2.1]
    exact hst

/-- Once the running best kind is `CL_LOCAL`, a device that is not a dedicated
device with a strictly larger work-group size changes nothing but
`error_code` and the release record. -/
theorem scan_device_local_keep (st : SelState) (d : Device) (s : Nat)
    (hst : st.mem_type = CL_LOCAL) (hsel : st.selected_device = some s)
    (hd : ¬ (d.has_kind CL_LOCAL ∧ st.max_work_group_size < d.work_group_size)) :
    (scan_device st d).selected_device = some s
      ∧ (scan_device st d).mem_type = CL_LOCAL
      ∧ (scan_device st d).max_work_group_size = st.max_work_group_size := by
  have hc : ¬ (d.viable ∧ displaces st d) := by
    rintro ⟨hv, hdis⟩
    rcases hdis with ⟨h1, _⟩ | ⟨h1, h2⟩
    · exact h1 hst
    · exact hd ⟨⟨hv, h1.trans hst⟩, h2⟩
  obtain ⟨k1, k2, k3, _⟩ := scan_device_keep st d hc
  refine ⟨?_, ?_, k3⟩
  · rw [k1, hsel]; rfl
  · rw [k2, hst]

theorem scan_devices_dedicated_inv (st : SelState) (hst : st.mem_type ≠ CL_LOCAL)
    (devs : List Device) :
    ((∀ x ∈ devs, ¬ x.has_kind CL_LOCAL) ∧ (scan_devices st devs).mem_type ≠ CL_LOCAL)
      ∨ ∃ d, earliest_best_dedicated devs d
          ∧ (scan_devices st devs).selected_device = some d.id
          ∧ (scan_devices st devs).mem_type = CL_LOCAL
          ∧ (scan_devices st devs).max_work_group_size = d.work_group_size := by
  induction devs using List.reverseRecOn with
  | nil => exact Or.inl ⟨by simp, hst⟩
  | append_singleton l a ih =>
    rw [scan_devices_snoc]
    rcases ih with ⟨hno, hm⟩ | ⟨d, ⟨pre, post, hl, hd, hpre, hpost⟩, hsel, hm, hmax⟩
    · by_cases ha : a.has_kind CL_LOCAL
      · right
        refine ⟨a, ⟨l, [], rfl, ha, ?_, by simp⟩, ?_⟩
        · intro x hx hxk
          exact absurd hxk (hno x hx)
        · rw [scan_device_take _ a ha.1 (Or.inl ⟨hm, ha.2⟩)]
          exact ⟨rfl, ha.2, rfl⟩
      · left
        refine ⟨?_, scan_device_not_local _ a hm ha⟩
        intro x hx
        rcases List.mem_append.1 hx with hx | hx
        · exact hno x hx
        · rw [List.mem_singleton.1 hx]; exact ha
    · right
      by_cases ha : a.has_kind CL_LOCAL
          ∧ (scan_devices st l).max_work_group_size < a.work_group_size
      · refine ⟨a, ⟨l, [], rfl, ha.1, ?_, by simp⟩, ?_⟩
        · intro x hx hxk
          rw [hl] at hx
          have hle : x.work_group_size ≤ d.work_group_size := by
            rcases List.mem_append.1 hx with hx | hx
            · exact Nat.le_of_lt (hpre x hx hxk)
            · rcases List.mem_cons.1 hx with hx | hx
              · rw [hx]
              · exact hpost x hx hxk
          have := ha.2
          rw [hmax] at this
          exact Nat.lt_of_le_of_lt hle this
        · rw [scan_device_take _ a ha.1.1 (Or.inr ⟨ha.1.2.trans hm.symm, ha.2⟩)]
          exact ⟨rfl, ha.1.2, rfl⟩
      · obtain ⟨k1, k2, k3⟩ := scan_device_local_keep _ a d.id hm hsel ha
        refine ⟨d, ⟨pre, post ++ [a], by rw [hl]; simp, hd, hpre, ?_⟩, k1, k2, k3.trans hmax⟩
        intro x hx hxk
        rcases List.mem_append.1 hx with hx | hx
        · exact hpost x hx hxk
        · rw [List.mem_singleton.1 hx]
          rw [hmax] at ha
          exact Nat.le_of_not_lt fun hlt => ha ⟨by rw [← List.mem_singleton.1 hx]; exact hxk, hlt⟩

/-- C1. In a run of `select_device` in which no platform has more devices than
`device_list` has entries: whenever the enumeration sequence holds a device
whose attribute queries succeed with kind `CL_LOCAL` (Dedicated), the device
left in `context.selected_device` is the earliest such device whose work-group
size is maximal among them: every dedicated device before it is strictly
smaller, every dedicated device after it is no larger. No Shared or None
device is retained. -/
theorem select_device_prefers_dedicated (w : OpenCL) (context : gpu_context)
    (hib : w.in_bounds) (h : ∃ d ∈ enumerated w, d.has_kind CL_LOCAL) :
    ∃ pre d post, enumerated w = pre ++ d :: post
      ∧ d.has_kind CL_LOCAL
      ∧ (∀ x ∈ pre, x.has_kind CL_LOCAL → x.work_group_size < d.work_group_size)
      ∧ (∀ x ∈ post, x.has_kind CL_LOCAL → x.work_group_size ≤ d.work_group_size)
      ∧ (select_device w context).context.selected_device = some d.id := by
  rw [select_device_selected w context hib]
  have hentry : (loop_entry w context).mem_type ≠ CL_LOCAL := by simp [loop_entry]
  rcases scan_devices_dedicated_inv _ hentry (enumerated w) with ⟨hno, _⟩ | ⟨d, hbest, hsel, _, _⟩
  · obtain ⟨d, hd, hk⟩ := h
    exact absurd hk (hno d hd)
  · obtain ⟨pre, post, hl, hd, hpre, hpost⟩ := hbest
    exact ⟨pre, d, post, hl, hd, hpre, hpost, hsel⟩

/-- C1 on the candidates `[(Shared,100), (Dedicated,10), (Dedicated,50),
(Shared,200)]`: the third entry (handle 3) is retained. -/
theorem select_device_prefers_dedicated_witness :
    (runtime_with mixed_devices).in_bounds
      ∧ (∃ d ∈ enumerated (runtime_with mixed_devices), d.has_kind CL_LOCAL)
      ∧ (∃ pre d post, enumerated (runtime_with mixed_devices) = pre ++ d :: post
          ∧ d.has_kind CL_LOCAL
          ∧ (∀ x ∈ pre, x.has_kind CL_LOCAL → x.work_group_size < d.work_group_size)
          ∧ (∀ x ∈ post, x.has_kind CL_LOCAL → x.work_group_size ≤ d.work_group_size)
          ∧ (select_device (runtime_with mixed_devices) {}).context.selected_device
              = some d.id)
      ∧ (select_device (runtime_with mixed_devices) {}).context.selected_device = some 3
      ∧ mixed_devices.map Device.id = [1, 2, 3, 4] :=
  ⟨by decide, ⟨device_ok 2 CL_LOCAL 10, by decide, by decide⟩,
   select_device_prefers_dedicated (runtime_with mixed_devices) {} (by decide)
     ⟨device_ok 2 CL_LOCAL 10, by decide, by decide⟩,
   by decide, by decide⟩

/-! ## The retained handle comes from the enumeration -/

theorem scan_device_selected_cases (st : SelState) (d : Device) :
    (scan_device st d).selected_device = some d.id
      ∨ (scan_device st d).selected_device = some (st.selected_device.getD d.id) := by
  by_cases hc : d.viable ∧ displaces st d
  · left; rw [scan_device_take st d hc.1 hc.2]
  · right; exact (scan_device_keep st d hc).1

theorem scan_devices_selected (devs : List Device) :
    ∀ (st : SelState) (s : Nat), st.selected_device = some s →
      (scan_devices st devs).selected_device = some s
        ∨ ∃ d ∈ devs, (scan_devices st devs).selected_device = some d.id := by
  induction devs with
  | nil => intro st s h; exact Or.inl h
  | cons a l ih =>
    intro st s h
    rw [scan_devices_cons]
    rcases scan_device_selected_cases st a with h1 | h1
    · rcases ih _ _ h1 with h2 | ⟨d, hd, h2⟩
      · exact Or.inr ⟨a, List.mem_cons_self _ _, h2⟩
      · exact Or.inr ⟨d, List.mem_cons_of_mem _ hd, h2⟩
    · rw [h] at h1
      rcases ih _ _ h1 with h2 | ⟨d, hd, h2⟩
      · exact Or.inl h2
      · exact Or.inr ⟨d, List.mem_cons_of_mem _ hd, h2⟩

theorem scan_devices_selected_of_none (devs : List Device) (st : SelState)
    (h0 : st.selected_device = none) (hne : devs ≠ []) :
    ∃ d ∈ devs, (scan_devices st devs).selected_device = some d.id := by
  cases devs with
  | nil => exact absurd rfl hne
  | cons a l =>
    rw [scan_devices_cons]
    have h1 : (scan_device st a).selected_device = some a.id := by
      rcases scan_device_selected_cases st a with h1 | h1
      · exact h1
      · rw [h1, h0]; rfl
    rcases scan_devices_selected l _ _ h1 with h2 | ⟨d, hd, h2⟩
    · exact ⟨a, List.mem_cons_self _ _, h2⟩
    · exact ⟨d, List.mem_cons_of_mem _ hd, h2⟩

/-- C6. For a context that enters `select_device` with no device selected and
a non-empty enumeration sequence, in a run in which no platform has more
devices than `device_list` has entries, the handle left in
`context.selected_device` when the enumeration loop has finished is non-null
and is the handle of one of the enumerated devices; `select_device` leaves
that same handle in the context. -/
theorem select_device_retains_enumerated (w : OpenCL) (context : gpu_context)
    (hib : w.in_bounds) (h0 : context.selected_device = none) (hne : enumerated w ≠ []) :
    ∃ d ∈ enumerated w,
      (enumeration_loop (loop_entry w context) w.platforms).selected_device = some d.id
        ∧ (select_device w context).context.selected_device = some d.id := by
  have h1 : w.platform_count_code = 0 := by
    by_contra hc; exact hne (enumerated_nil_of_count_code w hc)
  have h2 : w.platform_list_code = 0 := by
    by_contra hc; exact hne (enumerated_nil_of_list_code w hc)
  obtain ⟨d, hd, hsel⟩ :=
    scan_devices_selected_of_none (enumerated w) (loop_entry w context) h0 hne
  refine ⟨d, hd, ?_, ?_⟩
  · rw [(loop_same_scan w context hib h1 h2).1]; exact hsel
  · rw [select_device_selected w context hib]; exact hsel

/-- C6 on the four mixed candidates: handle 3 is retained and it is the handle
of an enumerated device. -/
theorem select_device_retains_enumerated_witness :
    (runtime_with mixed_devices).in_bounds
      ∧ (({} : gpu_context).selected_device = none)
      ∧ enumerated (runtime_with mixed_devices) ≠ []
      ∧ ∃ d ∈ enumerated (runtime_with mixed_devices),
          (enumeration_loop (loop_entry (runtime_with mixed_devices) {})
              (runtime_with mixed_devices).platforms).selected_device = some d.id
            ∧ (select_device (runtime_with mixed_devices) {}).context.selected_device
                = some d.id :=
  ⟨by decide, rfl, by decide,
   select_device_retains_enumerated (runtime_with mixed_devices) {} (by decide) rfl
     (by decide)⟩

/-! ## Devices of one memory kind -/

/-- Devices that fail the replacement test against the current attributes
leave the selection where it is. -/
theorem scan_devices_kept (devs : List Device) :
    ∀ (st : SelState) (s : Nat), st.selected_device = some s →
      (∀ d ∈ devs, ¬ (d.viable ∧ displaces st d)) →
      (scan_devices st devs).selected_device = some s := by
  induction devs with
  | nil => intro st s h _; exact h
  | cons a l ih =>
    intro st s h hall
    rw [scan_devices_cons]
    obtain ⟨k1, k2, k3, _⟩ := scan_device_keep st a (hall a (List.mem_cons_self _ _))
    apply ih
    · rw [k1, h]; rfl
    · intro d hd
      have := hall d (List.mem_cons_of_mem _ hd)
      unfold displaces at this ⊢
      rw [k2, k3]; exact this

/-- For an enumeration that fits `device_list` and in which every device
reports `CL_GLOBAL` (Shared) with both queries succeeding, `select_device`
retains the first enumerated device,
whatever the work-group sizes are: the same-kind comparison never applies to
Shared devices. -/
theorem shared_devices_keep_first (w : OpenCL) (context : gpu_context) (a : Device)
    (rest : List Device) (hib : w.in_bounds) (h0 : context.selected_device = none)
    (henum : enumerated w = a :: rest) (hall : ∀ d ∈ enumerated w, d.has_kind CL_GLOBAL) :
    (select_device w context).context.selected_device = some a.id := by
  rw [select_device_selected w context hib]
  rw [henum] at hall ⊢
  rw [scan_devices_cons]
  have hentry : (loop_entry w context).selected_device = none := h0
  have hno : ∀ (st : SelState) (d : Device), st.mem_type = CL_NONE → d.has_kind CL_GLOBAL →
      ¬ (d.viable ∧ displaces st d) := by
    rintro st d hst ⟨_, hd⟩ ⟨_, hdis⟩
    unfold displaces at hdis
    rw [hst, hd] at hdis
    simp at hdis
  obtain ⟨k1, k2, _, _⟩ :=
    scan_device_keep (loop_entry w context) a (hno _ a rfl (hall a (List.mem_cons_self _ _)))
  apply scan_devices_kept rest _ a.id
  · rw [k1, hentry]; rfl
  · intro d hd
    exact hno _ d (by rw [k2]; rfl) (hall d (List.mem_cons_of_mem _ hd))

theorem scan_devices_none_inv (st : SelState) (h0 : st.selected_device = none)
    (hm : st.mem_type = CL_NONE) (hw : st.max_work_group_size = 0) (devs : List Device)
    (hall : ∀ d ∈ devs, d.has_kind CL_NONE) (hne : devs ≠ []) :
    (scan_devices st devs).mem_type = CL_NONE
      ∧ ∃ d ∈ devs, (scan_devices st devs).selected_device = some d.id
          ∧ d.work_group_size = (scan_devices st devs).max_work_group_size
          ∧ ∀ x ∈ devs, x.work_group_size ≤ (scan_devices st devs).max_work_group_size := by
  induction devs using List.reverseRecOn with
  | nil => exact absurd rfl hne
  | append_singleton l a ih =>
    have ha : a.has_kind CL_NONE := hall a (by simp)
    rw [scan_devices_snoc]
    by_cases hl : l = []
    · subst hl
      rw [scan_devices_nil]
      by_cases hpos : 0 < a.work_group_size
      · rw [scan_device_take st a ha.1 (Or.inr ⟨ha.2.trans hm.symm, by rw [hw]; exact hpos⟩)]
        exact ⟨ha.2, a, by simp, rfl, rfl, by simp⟩
      · have hz : a.work_group_size = 0 := Nat.eq_zero_of_not_pos hpos
        have hk : ¬ (a.viable ∧ displaces st a) := by
          rintro ⟨_, hdis⟩
          unfold displaces at hdis
          rw [hm, hw, ha.2, hz] at hdis
          simp at hdis
        obtain ⟨k1, k2, k3, _⟩ := scan_device_keep st a hk
        refine ⟨by rw [k2, hm], a, by simp, by rw [k1, h0]; rfl, by rw [k3, hw, hz], ?_⟩
        intro x hx
        simp only [List.nil_append, List.mem_singleton] at hx
        rw [hx, k3, hw, hz]
    · obtain ⟨im, d, hd, isel, iw, imax⟩ :=
        ih (fun x hx => hall x (List.mem_append_left _ hx)) hl
      by_cases hlt : (scan_devices st l).max_work_group_size < a.work_group_size
      · rw [scan_device_take _ a ha.1 (Or.inr ⟨ha.2.trans im.symm, hlt⟩)]
        refine ⟨ha.2, a, by simp, rfl, rfl, ?_⟩
        intro x hx
        rcases List.mem_append.1 hx with hx | hx
        · exact Nat.le_of_lt (Nat.lt_of_le_of_lt (imax x hx) hlt)
        · rw [List.mem_singleton.1 hx]
      · have hk : ¬ (a.viable ∧ displaces (scan_devices st l) a) := by
          rintro ⟨_, hdis⟩
          unfold displaces at hdis
          rcases hdis with ⟨_, h2⟩ | ⟨_, h2⟩
          · rw [ha.2] at h2; exact absurd h2 (by decide)
          · exact hlt h2
        obtain ⟨k1, k2, k3, _⟩ := scan_device_keep _ a hk
        refine ⟨by rw [k2, im], d, List.mem_append_left _ hd, by rw [k1, isel]; rfl,
          by rw [k3]; exact iw, ?_⟩
        intro x hx
        rw [k3]
        rcases List.mem_append.1 hx with hx | hx
        · exact imax x hx
        · rw [List.mem_singleton.1 hx]; exact Nat.le_of_not_lt hlt

/-- For a non-empty enumeration that fits `device_list` and in which every
device reports the same kind,
`CL_LOCAL` (Dedicated) or `CL_NONE` (None), with both queries succeeding,
`select_device` retains a device of maximal work-group size. -/
theorem dedicated_or_none_largest_wins (w : OpenCL) (context : gpu_context) (kind : Nat)
    (hib : w.in_bounds) (hkind : kind = CL_LOCAL ∨ kind = CL_NONE)
    (h0 : context.selected_device = none)
    (hne : enumerated w ≠ []) (hall : ∀ d ∈ enumerated w, d.has_kind kind) :
    ∃ d ∈ enumerated w, (select_device w context).context.selected_device = some d.id
      ∧ ∀ x ∈ enumerated w, x.work_group_size ≤ d.work_group_size := by
  rw [select_device_selected w context hib]
  rcases hkind with rfl | rfl
  · have hentry : (loop_entry w context).mem_type ≠ CL_LOCAL := by simp [loop_entry]
    obtain ⟨a, ha⟩ := List.exists_mem_of_ne_nil _ hne
    rcases scan_devices_dedicated_inv _ hentry (enumerated w) with
      ⟨hno, _⟩ | ⟨d, ⟨pre, post, hl, _, hpre, hpost⟩, hsel, _, _⟩
    · exact absurd (hall a ha) (hno a ha)
    · refine ⟨d, by rw [hl]; simp, hsel, ?_⟩
      intro x hx
      have hxk := hall x hx
      rw [hl] at hx
      rcases List.mem_append.1 hx with hx | hx
      · exact Nat.le_of_lt (hpre x hx hxk)
      · rcases List.mem_cons.1 hx with hx | hx
        · rw [hx]
        · exact hpost x hx hxk
  · obtain ⟨_, d, hd, hsel, hw, hmax⟩ :=
      scan_devices_none_inv (loop_entry w context) h0 rfl rfl (enumerated w) hall hne
    exact ⟨d, hd, hsel, fun x hx => by rw [hw]; exact hmax x hx⟩

/-! ## Same-kind comparison and the release discipline at concrete runs -/

/-- C2 at `[(Shared,100), (Shared,200)]`: both queries of both devices succeed
and both report `CL_GLOBAL`, the largest work-group size is 200 (handle 2), and
`select_device` retains handle 1, whose work-group size is 100; handle 2 is
released. -/
theorem select_device_shared_keeps_first :
    (∀ d ∈ enumerated (runtime_with shared_devices), d.has_kind CL_GLOBAL)
      ∧ enumerated (runtime_with shared_devices)
          = [device_ok 1 CL_GLOBAL 100, device_ok 2 CL_GLOBAL 200]
      ∧ (select_device (runtime_with shared_devices) {}).context.selected_device = some 1
      ∧ (select_device (runtime_with shared_devices) {}).calls
          = [CLCall.clReleaseDevice 2, CLCall.clCreateContext 1,
             CLCall.clCreateCommandQueue (some 1000) 1] := by
  decide

/-- C3 at a single dedicated device (handle 7): the enumeration loop passes the
handle to `clReleaseDevice` once and still retains it, and `~gpu_context`
releases it again. -/
theorem select_device_releases_retained :
    enumerated (runtime_with [device_ok 7 CL_LOCAL 10]) = [device_ok 7 CL_LOCAL 10]
      ∧ (enumeration_loop (loop_entry (runtime_with [device_ok 7 CL_LOCAL 10]) {})
          (runtime_with [device_ok 7 CL_LOCAL 10]).platforms).released = [7]
      ∧ (select_device (runtime_with [device_ok 7 CL_LOCAL 10]) {}).context.selected_device
          = some 7
      ∧ (select_device (runtime_with [device_ok 7 CL_LOCAL 10]) {}).calls.count
          (CLCall.clReleaseDevice 7) = 1
      ∧ (select_device (runtime_with [device_ok 7 CL_LOCAL 10]) {}).context.destructor.count
          (CLCall.clReleaseDevice 7) = 1 := by
  decide

/-! ## Devices whose attribute query fails -/

/-- What one iteration adds to the release record, and what it can leave
selected. -/
theorem scan_device_released (st : SelState) (d : Device) :
    ∃ extra, (scan_device st d).released = st.released ++ extra
      ∧ (∀ h ∈ extra, st.selected_device = some h ∨ h = d.id)
      ∧ (∀ h, (scan_device st d).selected_device = some h →
          st.selected_device = some h ∨ h = d.id) := by
  have hget : ∀ h, st.selected_device.getD d.id = h → st.selected_device = some h ∨ h = d.id := by
    intro h hh
    cases hs : st.selected_device with
    | none => rw [hs] at hh; exact Or.inr hh.symm
    | some s => rw [hs] at hh; exact Or.inl (congrArg some hh)
  by_cases hc : d.viable ∧ displaces st d
  · rw [scan_device_take st d hc.1 hc.2]
    refine ⟨[st.selected_device.getD d.id], rfl, ?_, ?_⟩
    · intro h hh
      exact hget h (List.mem_singleton.1 hh).symm
    · intro h hh
      exact Or.inr (Option.some.inj hh).symm
  · obtain ⟨k1, _, _, k4⟩ := scan_device_keep st d hc
    refine ⟨if st.selected_device.getD d.id ≠ d.id then [d.id] else [], ?_, ?_, ?_⟩
    · rw [k4]; split <;> simp
    · intro h hh
      split at hh
      · exact Or.inr (List.mem_singleton.1 hh)
      · simp at hh
    · intro h hh
      rw [k1] at hh
      exact hget h (Option.some.inj hh)

theorem scan_devices_released (devs : List Device) :
    ∀ st : SelState, ∃ extra, (scan_devices st devs).released = st.released ++ extra
      ∧ ∀ h ∈ extra, st.selected_device = some h ∨ h ∈ devs.map Device.id := by
  induction devs with
  | nil => intro st; exact ⟨[], by simp [scan_devices_nil], by simp⟩
  | cons a l ih =>
    intro st
    obtain ⟨e1, he1, hin1, hsel1⟩ := scan_device_released st a
    obtain ⟨e2, he2, hin2⟩ := ih (scan_device st a)
    refine ⟨e1 ++ e2, ?_, ?_⟩
    · rw [scan_devices_cons, he2, he1, List.append_assoc]
    · intro h hh
      rcases List.mem_append.1 hh with hh | hh
      · rcases hin1 h hh with h1 | h1
        · exact Or.inl h1
        · exact Or.inr (by simp [h1])
      · rcases hin2 h hh with h1 | h1
        · rcases hsel1 h h1 with h2 | h2
          · exact Or.inl h2
          · exact Or.inr (by simp [h2])
        · exact Or.inr (by simp only [List.map_cons]; exact List.mem_cons_of_mem _ h1)

/-- A device whose attribute query fails leaves the running best attributes
alone; it is released unless it is the selected handle. -/
theorem scan_device_failing (st : SelState) (d : Device) (hfail : ¬ d.viable) :
    (scan_device st d).selected_device = some (st.selected_device.getD d.id)
      ∧ (scan_device st d).mem_type = st.mem_type
      ∧ (scan_device st d).max_work_group_size = st.max_work_group_size
      ∧ (scan_device st d).released =
          if st.selected_device.getD d.id ≠ d.id then st.released ++ [d.id] else st.released :=
  scan_device_keep st d fun h => hfail h.1

/-- The `clReleaseDevice` calls of `select_device` are the release record of a
pass over the enumeration sequence. -/
theorem select_device_release_count (w : OpenCL) (context : gpu_context) (hib : w.in_bounds)
    (h : Nat) :
    (select_device w context).calls.count (CLCall.clReleaseDevice h)
      = (scan_devices (loop_entry w context) (enumerated w)).released.count h := by
  have hinj : Function.Injective CLCall.clReleaseDevice := fun a b hab => by
    injection hab
  by_cases h1 : w.platform_count_code = 0
  · by_cases h2 : w.platform_list_code = 0
    · rw [← (loop_same_scan w context hib h1 h2).2.2.2]
      simp only [select_device, h1, h2, ne_eq, not_true_eq_false, if_false]
      cases hsel : (enumeration_loop (loop_entry w context) w.platforms).selected_device with
      | none => exact List.count_map_of_injective _ _ hinj _
      | some dev =>
        simp only
        split
        · rw [List.count_append, List.count_map_of_injective _ _ hinj]
          simp
        · rw [List.count_append, List.count_map_of_injective _ _ hinj]
          simp
    · rw [enumerated_nil_of_list_code w h2]
      simp [select_device, h1, h2, scan_devices_nil, loop_entry]
  · rw [enumerated_nil_of_count_code w h1]
    simp [select_device, h1, scan_devices_nil, loop_entry]

/-- Two passes over the same devices from states with the same selection and
running best attributes stay in step, and append the same handles to their
release records. -/
theorem scan_devices_parallel (l : List Device) :
    ∀ a b : SelState, a.selected_device = b.selected_device → a.mem_type = b.mem_type →
      a.max_work_group_size = b.max_work_group_size →
      ∃ later, (scan_devices a l).released = a.released ++ later
        ∧ (scan_devices b l).released = b.released ++ later
        ∧ (scan_devices a l).selected_device = (scan_devices b l).selected_device
        ∧ (scan_devices a l).mem_type = (scan_devices b l).mem_type
        ∧ (scan_devices a l).max_work_group_size = (scan_devices b l).max_work_group_size := by
  induction l with
  | nil => intro a b h1 h2 h3; exact ⟨[], by simp [scan_devices_nil], by simp [scan_devices_nil],
      h1, h2, h3⟩
  | cons d l ih =>
    intro a b h1 h2 h3
    have hstep : ∃ e, (scan_device a d).released = a.released ++ e
        ∧ (scan_device b d).released = b.released ++ e
        ∧ (scan_device a d).selected_device = (scan_device b d).selected_device
        ∧ (scan_device a d).mem_type = (scan_device b d).mem_type
        ∧ (scan_device a d).max_work_group_size = (scan_device b d).max_work_group_size := by
      by_cases hc : d.viable ∧ displaces a d
      · have hc2 : displaces b d := by
          have := hc.2
          unfold displaces at this ⊢
          rw [← h2, ← h3]; exact this
        rw [scan_device_take a d hc.1 hc.2, scan_device_take b d hc.1 hc2]
        exact ⟨[a.selected_device.getD d.id], rfl, by rw [h1], rfl, rfl, rfl⟩
      · have hc2 : ¬ (d.viable ∧ displaces b d) := by
          intro hb
          apply hc
          refine ⟨hb.1, ?_⟩
          have := hb.2
          unfold displaces at this ⊢
          rw [h2, h3]; exact this
        obtain ⟨a1, a2, a3, a4⟩ := scan_device_keep a d hc
        obtain ⟨b1, b2, b3, b4⟩ := scan_device_keep b d hc2
        refine ⟨if a.selected_device.getD d.id ≠ d.id then [d.id] else [], ?_, ?_, ?_, ?_, ?_⟩
        · rw [a4]; split <;> simp
        · rw [b4, ← h1]; split <;> simp
        · rw [a1, b1, h1]
        · rw [a2, b2, h2]
        · rw [a3, b3, h3]
    obtain ⟨e1, ha1, hb1, s1, s2, s3⟩ := hstep
    obtain ⟨e2, ha2, hb2, t1, t2, t3⟩ := ih _ _ s1 s2 s3
    refine ⟨e1 ++ e2, ?_, ?_, t1, t2, t3⟩
    · rw [scan_devices_cons, ha2, ha1, List.append_assoc]
    · rw [scan_devices_cons, hb2, hb1, List.append_assoc]

/-- While no device passes the replacement test, the selection and the running
best attributes stay as they are and the selected handle is not released. -/
theorem scan_devices_kept_full (devs : List Device) :
    ∀ (st : SelState) (s : Nat), st.selected_device = some s →
      (∀ d ∈ devs, ¬ (d.viable ∧ displaces st d)) →
      (scan_devices st devs).selected_device = some s
        ∧ (scan_devices st devs).mem_type = st.mem_type
        ∧ (scan_devices st devs).max_work_group_size = st.max_work_group_size
        ∧ ∃ later, (scan_devices st devs).released = st.released ++ later
            ∧ ∀ h ∈ later, h ≠ s := by
  induction devs with
  | nil => intro st s h _; exact ⟨h, rfl, rfl, [], by simp [scan_devices_nil], by simp⟩
  | cons a l ih =>
    intro st s h hall
    rw [scan_devices_cons]
    obtain ⟨k1, k2, k3, k4⟩ := scan_device_keep st a (hall a (List.mem_cons_self _ _))
    have hget : st.selected_device.getD a.id = s := by rw [h]; rfl
    rw [hget] at k1 k4
    have hrest : ∀ d ∈ l, ¬ (d.viable ∧ displaces (scan_device st a) d) := by
      intro d hd
      have := hall d (List.mem_cons_of_mem _ hd)
      unfold displaces at this ⊢
      rw [k2, k3]; exact this
    obtain ⟨i1, i2, i3, later, i4, i5⟩ := ih _ s k1 hrest
    refine ⟨i1, i2.trans k2, i3.trans k3, ?_⟩
    by_cases hs : s = a.id
    · refine ⟨later, ?_, i5⟩
      rw [i4, k4]; simp [hs]
    · refine ⟨a.id :: later, ?_, ?_⟩
      · rw [i4, k4]; simp [hs]
      · intro x hx
        rcases List.mem_cons.1 hx with hx | hx
        · rw [hx]; exact fun e => hs e.symm
        · exact i5 x hx

/-- A failing device scanned while nothing is selected becomes the selection
without being released, and stays so while no later device passes the
replacement test. -/
theorem scan_from_failing_first (st : SelState) (d : Device) (mid : List Device)
    (h0 : st.selected_device = none) (hfail : ¬ d.viable)
    (hmid : ∀ x ∈ mid, ¬ (x.viable ∧ displaces st x)) :
    (scan_devices st (d :: mid)).selected_device = some d.id
      ∧ (scan_devices st (d :: mid)).mem_type = st.mem_type
      ∧ (scan_devices st (d :: mid)).max_work_group_size = st.max_work_group_size
      ∧ ∃ later, (scan_devices st (d :: mid)).released = st.released ++ later
          ∧ ∀ h ∈ later, h ≠ d.id := by
  obtain ⟨k1, k2, k3, k4⟩ := scan_device_failing st d hfail
  have hget : st.selected_device.getD d.id = d.id := by rw [h0]; rfl
  rw [hget] at k1 k4
  have hrest : ∀ x ∈ mid, ¬ (x.viable ∧ displaces (scan_device st d) x) := by
    intro x hx
    have := hmid x hx
    unfold displaces at this ⊢
    rw [k2, k3]; exact this
  obtain ⟨i1, i2, i3, later, i4, i5⟩ := scan_devices_kept_full mid _ d.id k1 hrest
  rw [scan_devices_cons]
  refine ⟨i1, i2.trans k2, i3.trans k3, later, ?_, i5⟩
  rw [i4, k4]; simp

/-- C5, as the code has it. Take a run that starts with no device selected and
in which no platform has more devices than `device_list` has entries. Let `d`
be an enumerated device whose memory-kind or work-group-size query fails, `pre`
the devices enumerated before it and `post` those after it. The loop state is
followed by `scan_devices` over the enumeration sequence, which the nested
loops agree with up to `error_code` (`loop_same_scan`).

* `d` leaves the running best attributes unchanged.
* If `d` is not the first enumerated device and the handles are pairwise
  distinct: `d` leaves the selection unchanged; the later devices are scanned
  as if `d` had not been enumerated, that is, the run ends with the selection
  and attributes of the run without `d`, and its release record is that of the
  run without `d` with the handle of `d` inserted at the iteration of `d`;
  `select_device` retains the device it retains in any run whose enumeration
  sequence is the same without `d`, releases the handle of `d` exactly once,
  and does not retain `d`.
* If `d` is the first enumerated device: after its iteration it is the
  selection and has not been released; it stays selected, unreleased, over
  any run `mid` of later devices none of which passes the replacement test;
  the first later device that passes the test takes the selection and `d` is
  released at that iteration; and when no later device passes the test,
  `select_device` retains `d`. -/
theorem failing_device_is_skipped (w : OpenCL) (context : gpu_context)
    (pre : List Device) (d : Device) (post : List Device)
    (hib : w.in_bounds)
    (h0 : context.selected_device = none)
    (henum : enumerated w = pre ++ d :: post)
    (hfail : ¬ d.viable) :
    (scan_devices (loop_entry w context) (pre ++ [d])).mem_type
        = (scan_devices (loop_entry w context) pre).mem_type
      ∧ (scan_devices (loop_entry w context) (pre ++ [d])).max_work_group_size
        = (scan_devices (loop_entry w context) pre).max_work_group_size
      ∧ (pre ≠ [] → ((enumerated w).map Device.id).Nodup →
          (scan_devices (loop_entry w context) (pre ++ [d])).selected_device
              = (scan_devices (loop_entry w context) pre).selected_device
            ∧ (∃ later,
                (scan_devices (loop_entry w context) (pre ++ d :: post)).released
                    = (scan_devices (loop_entry w context) pre).released ++ d.id :: later
                  ∧ (scan_devices (loop_entry w context) (pre ++ post)).released
                    = (scan_devices (loop_entry w context) pre).released ++ later)
            ∧ (scan_devices (loop_entry w context) (pre ++ d :: post)).selected_device
                = (scan_devices (loop_entry w context) (pre ++ post)).selected_device
            ∧ (scan_devices (loop_entry w context) (pre ++ d :: post)).mem_type
                = (scan_devices (loop_entry w context) (pre ++ post)).mem_type
            ∧ (scan_devices (loop_entry w context) (pre ++ d :: post)).max_work_group_size
                = (scan_devices (loop_entry w context) (pre ++ post)).max_work_group_size
            ∧ (∀ w2 : OpenCL, w2.in_bounds → enumerated w2 = pre ++ post →
                (select_device w2 context).context.selected_device
                  = (select_device w context).context.selected_device)
            ∧ (select_device w context).calls.count (CLCall.clReleaseDevice d.id) = 1
            ∧ (select_device w context).context.selected_device ≠ some d.id)
      ∧ (pre = [] →
          (scan_devices (loop_entry w context) [d]).selected_device = some d.id
            ∧ (scan_devices (loop_entry w context) [d]).released = []
            ∧ (∀ mid rest, post = mid ++ rest →
                (∀ x ∈ mid, ¬ (x.viable ∧ displaces (loop_entry w context) x)) →
                (scan_devices (loop_entry w context) (d :: mid)).selected_device = some d.id
                  ∧ d.id ∉ (scan_devices (loop_entry w context) (d :: mid)).released)
            ∧ (∀ mid x rest, post = mid ++ x :: rest →
                (∀ y ∈ mid, ¬ (y.viable ∧ displaces (loop_entry w context) y)) →
                x.viable → displaces (loop_entry w context) x →
                (scan_devices (loop_entry w context) (d :: mid ++ [x])).selected_device
                    = some x.id
                  ∧ (scan_devices (loop_entry w context) (d :: mid ++ [x])).released
                    = (scan_devices (loop_entry w context) (d :: mid)).released ++ [d.id])
            ∧ ((∀ x ∈ post, ¬ (x.viable ∧ displaces (loop_entry w context) x)) →
                (select_device w context).context.selected_device = some d.id)) := by
  obtain ⟨k1, k2, k3, k4⟩ := scan_device_failing (scan_devices (loop_entry w context) pre) d hfail
  have hentry : (loop_entry w context).selected_device = none := h0
  have hrel0 : (loop_entry w context).released = [] := rfl
  refine ⟨?_, ?_, ?_, ?_⟩
  · rw [scan_devices_snoc]; exact k2
  · rw [scan_devices_snoc]; exact k3
  · intro hpre hnd
    rw [henum, List.map_append, List.map_cons] at hnd
    obtain ⟨_, hnd2, hdisj⟩ := List.nodup_append.1 hnd
    have hpre_ne : ∀ x ∈ pre, x.id ≠ d.id := by
      intro x hx hxd
      exact hdisj (List.mem_map_of_mem _ hx) (by rw [hxd]; exact List.mem_cons_self _ _)
    have hpost_ne : ∀ h ∈ post.map Device.id, h ≠ d.id := by
      intro h hh hhd
      exact (List.nodup_cons.1 hnd2).1 (hhd ▸ hh)
    obtain ⟨p, hp, hsel⟩ := scan_devices_selected_of_none pre _ hentry hpre
    have hget : (scan_devices (loop_entry w context) pre).selected_device.getD d.id = p.id := by
      rw [hsel]; rfl
    have hstep_sel : (scan_devices (loop_entry w context) (pre ++ [d])).selected_device
        = some p.id := by
      rw [scan_devices_snoc, k1, hget]
    have hstep_rel : (scan_devices (loop_entry w context) (pre ++ [d])).released
        = (scan_devices (loop_entry w context) pre).released ++ [d.id] := by
      rw [scan_devices_snoc, k4, hget, if_pos (hpre_ne p hp)]
    have hsplit : scan_devices (loop_entry w context) (pre ++ d :: post)
        = scan_devices (scan_devices (loop_entry w context) (pre ++ [d])) post := by
      rw [← scan_devices_append]; simp
    have hfinal : scan_devices (loop_entry w context) (enumerated w)
        = scan_devices (scan_devices (loop_entry w context) (pre ++ [d])) post := by
      rw [henum]; exact hsplit
    obtain ⟨later, p1, p2, p3, p4, p5⟩ :=
      scan_devices_parallel post (scan_devices (loop_entry w context) (pre ++ [d]))
        (scan_devices (loop_entry w context) pre) (by rw [hstep_sel, hsel])
        (by rw [scan_devices_snoc]; exact k2) (by rw [scan_devices_snoc]; exact k3)
    have hwithout : scan_devices (loop_entry w context) (pre ++ post)
        = scan_devices (scan_devices (loop_entry w context) pre) post :=
      scan_devices_append _ _ _
    refine ⟨by rw [hstep_sel, hsel], ⟨later, ?_, ?_⟩, ?_, ?_, ?_, ?_, ?_, ?_⟩
    · rw [hsplit, p1, hstep_rel]; simp
    · rw [hwithout]; exact p2
    · rw [hsplit, hwithout]; exact p3
    · rw [hsplit, hwithout]; exact p4
    · rw [hsplit, hwithout]; exact p5
    · intro w2 hib2 henum2
      have hsame : (loop_entry w2 context).same (loop_entry w context) := ⟨rfl, rfl, rfl, rfl⟩
      rw [select_device_selected w2 context hib2, select_device_selected w context hib, henum2,
        hfinal, (scan_devices_same (pre ++ post) _ _ hsame).1, hwithout]
      exact p3.symm
    · rw [select_device_release_count w context hib, hfinal]
      obtain ⟨e0, he0, hin0⟩ := scan_devices_released pre (loop_entry w context)
      obtain ⟨e2, he2, hin2⟩ :=
        scan_devices_released post (scan_devices (loop_entry w context) (pre ++ [d]))
      have hc0 : e0.count d.id = 0 := by
        apply List.count_eq_zero_of_not_mem
        intro hmem
        rcases hin0 _ hmem with h1 | h1
        · rw [hentry] at h1; exact Option.noConfusion h1
        · obtain ⟨x, hx, hxd⟩ := List.mem_map.1 h1
          exact hpre_ne x hx hxd
      have hc2 : e2.count d.id = 0 := by
        apply List.count_eq_zero_of_not_mem
        intro hmem
        rcases hin2 _ hmem with h1 | h1
        · rw [hstep_sel] at h1
          exact hpre_ne p hp (Option.some.inj h1)
        · exact hpost_ne _ h1 rfl
      rw [he2, hstep_rel, he0, hrel0]
      simp [List.count_append, hc0, hc2]
    · rw [select_device_selected w context hib, hfinal]
      rcases scan_devices_selected post _ p.id hstep_sel with h1 | ⟨x, hx, h1⟩
      · rw [h1]
        exact fun hh => hpre_ne p hp (Option.some.inj hh)
      · rw [h1]
        exact fun hh => hpost_ne _ (List.mem_map_of_mem _ hx) (Option.some.inj hh)
  · intro hpre
    subst hpre
    obtain ⟨f1, _, _, l0, f4, _⟩ :=
      scan_from_failing_first (loop_entry w context) d [] hentry hfail (by simp)
    have hget : (scan_devices (loop_entry w context) []).selected_device.getD d.id = d.id := by
      rw [scan_devices_nil, hentry]; rfl
    refine ⟨f1, ?_, ?_, ?_, ?_⟩
    · have : scan_devices (loop_entry w context) [d]
          = scan_device (scan_devices (loop_entry w context) []) d := rfl
      rw [this, k4, hget]
      simp [scan_devices_nil, loop_entry]
    · intro mid rest _ hmid
      obtain ⟨m1, _, _, later, m4, m5⟩ :=
        scan_from_failing_first (loop_entry w context) d mid hentry hfail hmid
      refine ⟨m1, ?_⟩
      rw [m4, hrel0]
      intro hmem
      exact m5 d.id (by simpa using hmem) rfl
    · intro mid x rest _ hmid hxv hxd
      obtain ⟨m1, m2, m3, _⟩ :=
        scan_from_failing_first (loop_entry w context) d mid hentry hfail hmid
      have hcons : d :: mid ++ [x] = (d :: mid) ++ [x] := rfl
      have hdis : displaces (scan_devices (loop_entry w context) (d :: mid)) x := by
        unfold displaces at hxd ⊢
        rw [m2, m3]; exact hxd
      rw [hcons, scan_devices_snoc, scan_device_take _ x hxv hdis, m1]
      exact ⟨rfl, rfl⟩
    · intro hpost
      rw [select_device_selected w context hib, henum]
      exact (scan_from_failing_first (loop_entry w context) d post hentry hfail hpost).1

/-- C5 on a Shared device, a failing device and a Dedicated device (handles
1, 2, 3): the failing device is released once and is not retained. And on a
failing device followed by a Shared device (handles 7, 8): no later device
passes the replacement test, and the failing first device is retained. -/
theorem failing_device_is_skipped_witness :
    ((runtime_with skipped_devices).in_bounds
        ∧ (({} : gpu_context).selected_device = none)
        ∧ enumerated (runtime_with skipped_devices)
            = [device_ok 1 CL_GLOBAL 100] ++ device_failing 2 (-30)
                :: [device_ok 3 CL_LOCAL 50]
        ∧ ¬ (device_failing 2 (-30)).viable
        ∧ (select_device (runtime_with skipped_devices) {}).calls.count
            (CLCall.clReleaseDevice 2) = 1
        ∧ (select_device (runtime_with skipped_devices) {}).context.selected_device ≠ some 2)
      ∧ ((runtime_with failing_first_devices).in_bounds
        ∧ enumerated (runtime_with failing_first_devices)
            = [] ++ device_failing 7 (-30) :: [device_ok 8 CL_GLOBAL 64]
        ∧ ¬ (device_failing 7 (-30)).viable
        ∧ (select_device (runtime_with failing_first_devices) {}).context.selected_device
            = some 7) :=
  ⟨⟨by decide, rfl, by decide, by decide,
    ((failing_device_is_skipped (runtime_with skipped_devices) {}
       [device_ok 1 CL_GLOBAL 100] (device_failing 2 (-30)) [device_ok 3 CL_LOCAL 50]
       (by decide) rfl (by decide) (by decide)).2.2.1 (by decide) (by decide)).2.2.2.2.2.2⟩,
   ⟨by decide, by decide, by decide,
    ((failing_device_is_skipped (runtime_with failing_first_devices) {}
       [] (device_failing 7 (-30)) [device_ok 8 CL_GLOBAL 64]
       (by decide) rfl (by decide) (by decide)).2.2.2 rfl).2.2.2.2 (by decide)⟩⟩

/-- C5 as stated fails when the failing device is the first one enumerated:
the memory-kind query of handle 7 fails, yet handle 7 is never passed to
`clReleaseDevice` and is the device `select_device` retains, while the Shared
device behind it (handle 8, queries succeed) is released. -/
theorem failing_first_device_is_retained :
    enumerated (runtime_with failing_first_devices) = failing_first_devices
      ∧ failing_first_devices.map Device.id = [7, 8]
      ∧ ¬ (device_failing 7 (-30)).viable
      ∧ (select_device (runtime_with failing_first_devices) {}).context.selected_device
          = some 7
      ∧ (select_device (runtime_with failing_first_devices) {}).calls.count
          (CLCall.clReleaseDevice 7) = 0
      ∧ (select_device (runtime_with failing_first_devices) {}).calls.count
          (CLCall.clReleaseDevice 8) = 1 := by
  decide

/-! ## What `select_device` reports -/

theorem enumeration_loop_snoc (st : SelState) (init : List Platform) (p : Platform) :
    enumeration_loop st (init ++ [p]) = scan_platform (enumeration_loop st init) p := by
  simp [enumeration_loop, List.foldl_append]

/-- Return value and context of `select_device` in terms of the state the
enumeration loop ends in, when both `clGetPlatformIDs` calls succeed. -/
theorem select_device_after_loop (w : OpenCL) (context : gpu_context)
    (h1 : w.platform_count_code = 0) (h2 : w.platform_list_code = 0) :
    (∀ dev, (enumeration_loop (loop_entry w context) w.platforms).selected_device = some dev →
        (select_device w context).ret
          = if (w.clCreateContext dev).2 ≠ 0 then (w.clCreateContext dev).2
            else (w.clCreateCommandQueue (w.clCreateContext dev).1 dev).2)
      ∧ ((enumeration_loop (loop_entry w context) w.platforms).selected_device = none →
        (select_device w context).ret
          = (enumeration_loop (loop_entry w context) w.platforms).error_code) := by
  constructor
  · intro dev hsel
    simp only [select_device, h1, h2, ne_eq, not_true_eq_false, if_false, hsel]
    split <;> rfl
  · intro hsel
    simp only [select_device, h1, h2, ne_eq, not_true_eq_false, if_false, hsel]

theorem scan_devices_all_failing (devs : List Device) :
    ∀ (st : SelState) (s : Nat), st.selected_device = some s → (∀ d ∈ devs, ¬ d.viable) →
      (scan_devices st devs).selected_device = some s := by
  induction devs with
  | nil => intro st s h _; exact h
  | cons a l ih =>
    intro st s h hall
    rw [scan_devices_cons]
    apply ih _ _ _ fun d hd => hall d (List.mem_cons_of_mem _ hd)
    rw [(scan_device_failing st a (hall a (List.mem_cons_self _ _))).1, h]
    rfl

/-- C4, as the code has it, for a run that starts with no device selected.
`select_device` returns the failing code when either `clGetPlatformIDs` call
fails, and when no device is enumerated and the `clGetDeviceIDs` call of the
last platform failed it returns that code and retains nothing. In a run in
which no platform has more devices than `device_list` has entries: when at
least one device is enumerated, the handle of an enumerated device is retained
in every case, and the return value is the code of `clCreateContext` when that
is non-zero and the code of `clCreateCommandQueue` otherwise; and when every
enumerated device fails an attribute query, the retained device is the first
enumerated one. -/
theorem select_device_reports (w : OpenCL) (context : gpu_context)
    (h0 : context.selected_device = none) :
    (w.platform_count_code ≠ 0 →
        (select_device w context).ret = w.platform_count_code
          ∧ (select_device w context).context.selected_device = none)
      ∧ (w.platform_count_code = 0 → w.platform_list_code ≠ 0 →
        (select_device w context).ret = w.platform_list_code
          ∧ (select_device w context).context.selected_device = none)
      ∧ (∀ init p, w.platform_count_code = 0 → w.platform_list_code = 0 →
        w.platforms = init ++ [p] → p.code ≠ 0 → enumerated w = [] →
        (select_device w context).ret = p.code
          ∧ (select_device w context).ret ≠ 0
          ∧ (select_device w context).context.selected_device = none)
      ∧ (w.in_bounds → enumerated w ≠ [] →
        ∃ d ∈ enumerated w, (select_device w context).context.selected_device = some d.id
          ∧ (select_device w context).ret
              = if (w.clCreateContext d.id).2 ≠ 0 then (w.clCreateContext d.id).2
                else (w.clCreateCommandQueue (w.clCreateContext d.id).1 d.id).2)
      ∧ (∀ a rest, w.in_bounds → enumerated w = a :: rest →
        (∀ d ∈ enumerated w, ¬ d.viable) →
        (select_device w context).context.selected_device = some a.id) := by
  refine ⟨?_, ?_, ?_, ?_, ?_⟩
  · intro h1
    simp [select_device, h1, h0]
  · intro h1 h2
    simp [select_device, h1, h2, h0]
  · intro init p h1 h2 hps hp hnil
    have hib : w.in_bounds :=
      in_bounds_of_enumerated_of_nil w.platforms (by rw [← enumerated_eq w h1 h2]; exact hnil)
    have hsel : (select_device w context).context.selected_device = none := by
      rw [select_device_selected w context hib, hnil, scan_devices_nil]; exact h0
    have hloop : (enumeration_loop (loop_entry w context) w.platforms).selected_device = none := by
      rw [(loop_same_scan w context hib h1 h2).1, hnil, scan_devices_nil]; exact h0
    have hret := (select_device_after_loop w context h1 h2).2 hloop
    have hcode : (enumeration_loop (loop_entry w context) w.platforms).error_code = p.code := by
      rw [hps, enumeration_loop_snoc]
      simp [scan_platform, hp]
    rw [hcode] at hret
    exact ⟨hret, by rw [hret]; exact hp, hsel⟩
  · intro hib hne
    have h1 : w.platform_count_code = 0 := by
      by_contra hc; exact hne (enumerated_nil_of_count_code w hc)
    have h2 : w.platform_list_code = 0 := by
      by_contra hc; exact hne (enumerated_nil_of_list_code w hc)
    obtain ⟨d, hd, hsel⟩ :=
      scan_devices_selected_of_none (enumerated w) (loop_entry w context) h0 hne
    refine ⟨d, hd, by rw [select_device_selected w context hib]; exact hsel, ?_⟩
    apply (select_device_after_loop w context h1 h2).1
    rw [(loop_same_scan w context hib h1 h2).1]; exact hsel
  · intro a rest hib henum hall
    rw [select_device_selected w context hib]
    rw [henum] at hall ⊢
    rw [scan_devices_cons]
    apply scan_devices_all_failing rest _ _ _ fun d hd => hall d (List.mem_cons_of_mem _ hd)
    rw [(scan_device_failing _ a (hall a (List.mem_cons_self _ _))).1]
    have : (loop_entry w context).selected_device = none := h0
    rw [this]; rfl

/-- C4 on three enumerated devices of which the second fails its query: an
enumerated handle is retained and the return value is that of the queue
creation. -/
theorem select_device_reports_witness :
    (({} : gpu_context).selected_device = none)
      ∧ (runtime_with skipped_devices).in_bounds
      ∧ enumerated (runtime_with skipped_devices) ≠ []
      ∧ ∃ d ∈ enumerated (runtime_with skipped_devices),
          (select_device (runtime_with skipped_devices) {}).context.selected_device = some d.id
            ∧ (select_device (runtime_with skipped_devices) {}).ret
                = if ((runtime_with skipped_devices).clCreateContext d.id).2 ≠ 0
                  then ((runtime_with skipped_devices).clCreateContext d.id).2
                  else ((runtime_with skipped_devices).clCreateCommandQueue
                    ((runtime_with skipped_devices).clCreateContext d.id).1 d.id).2 :=
  ⟨rfl, by decide, by decide,
   (select_device_reports (runtime_with skipped_devices) {} rfl).2.2.2.1 (by decide)
     (by decide)⟩

/-- C4 as stated fails: both enumerated devices (handles 7 and 8) fail their
memory-kind query, yet `select_device` returns 0 and retains handle 7. -/
theorem select_device_succeeds_without_viable_device :
    enumerated (runtime_with failing_devices) = failing_devices
      ∧ failing_devices.map Device.id = [7, 8]
      ∧ (∀ d ∈ enumerated (runtime_with failing_devices), ¬ d.viable)
      ∧ (select_device (runtime_with failing_devices) {}).ret = 0
      ∧ (select_device (runtime_with failing_devices) {}).context.selected_device = some 7 := by
  decide

/-- With one platform that reports success and no devices, `select_device`
returns 0 with nothing selected, and `setup_gpu_context` then stops at the
first assertion of `load_program`. -/
theorem select_device_empty_platform :
    enumerated (runtime_with []) = []
      ∧ (select_device (runtime_with []) {}).ret = 0
      ∧ (select_device (runtime_with []) {}).context.selected_device = none
      ∧ setup_gpu_context (runtime_with []) ["const.h", "kernel.cl"] ["mandelbrot"] 480 640
          = none := by
  decide

/-! ## Teardown -/

theorem count_release_if (f : Nat → CLCall) (hf : Function.Injective f) (o : Option Nat)
    (h : Nat) : (release_if f o).count (f h) = if o = some h then 1 else 0 := by
  cases o with
  | none => simp [release_if]
  | some x =>
    by_cases hx : x = h
    · simp [release_if, hx]
    · have : f x ≠ f h := fun e => hx (hf e)
      simp [release_if, hx, List.count_cons, this]

theorem count_release_if_other (f : Nat → CLCall) (o : Option Nat) (call : CLCall)
    (hne : ∀ x, f x ≠ call) : (release_if f o).count call = 0 := by
  cases o with
  | none => simp [release_if]
  | some x => simp [release_if, List.count_cons, hne x]

theorem count_kernel_releases (ks : List (Option Nat)) (h : Nat) :
    (ks.flatMap (release_if CLCall.clReleaseKernel)).count (CLCall.clReleaseKernel h)
      = ks.count (some h) := by
  have hinj : Function.Injective CLCall.clReleaseKernel := fun a b hab => by injection hab
  induction ks with
  | nil => rfl
  | cons k ks ih =>
    rw [List.flatMap_cons, List.count_append, ih, count_release_if _ hinj, List.count_cons]
    by_cases hk : k = some h
    · simp [hk]; omega
    · simp [hk]

theorem count_kernel_releases_other (ks : List (Option Nat)) (call : CLCall)
    (hne : ∀ x, CLCall.clReleaseKernel x ≠ call) :
    (ks.flatMap (release_if CLCall.clReleaseKernel)).count call = 0 := by
  induction ks with
  | nil => rfl
  | cons k ks ih =>
    rw [List.flatMap_cons, List.count_append, ih, count_release_if_other _ _ _ hne]

theorem mem_release_if (f : Nat → CLCall) (o : Option Nat) (call : CLCall)
    (h : call ∈ release_if f o) : ∃ x, call = f x := by
  cases o with
  | none => simp [release_if] at h
  | some x => exact ⟨x, by simpa [release_if] using h⟩

theorem length_release_if (f : Nat → CLCall) (o : Option Nat) :
    (release_if f o).length = o.toList.length := by
  cases o <;> rfl

theorem length_kernel_releases (ks : List (Option Nat)) :
    (ks.flatMap (release_if CLCall.clReleaseKernel)).length
      = (ks.filter Option.isSome).length := by
  induction ks with
  | nil => rfl
  | cons k ks ih =>
    rw [List.flatMap_cons, List.length_append, ih]
    cases k with
    | none => simp [release_if]
    | some x => simp [release_if]; omega

/-- The destructor releases exactly the non-null fields and kernel slots of
the context it runs on, whatever that context is. -/
theorem destructor_releases_exactly_acquired (c : gpu_context) :
    releases_exactly_acquired c c.destructor := by
  have ip : Function.Injective CLCall.clReleaseProgram := fun a b hab => by injection hab
  have im : Function.Injective CLCall.clReleaseMemObject := fun a b hab => by injection hab
  have ic : Function.Injective CLCall.clReleaseContext := fun a b hab => by injection hab
  have iq : Function.Injective CLCall.clReleaseCommandQueue := fun a b hab => by injection hab
  have id : Function.Injective CLCall.clReleaseDevice := fun a b hab => by injection hab
  unfold releases_exactly_acquired gpu_context.destructor
  refine ⟨?_, ?_, ?_, ?_, ?_, ?_, ?_, ?_⟩
  · intro h
    rw [List.count_append, List.count_append, List.count_append, List.count_append,
      List.count_append, count_release_if _ ip,
      count_release_if_other _ _ _ (by simp), count_kernel_releases_other _ _ (by simp),
      count_release_if_other _ _ _ (by simp), count_release_if_other _ _ _ (by simp),
      count_release_if_other _ _ _ (by simp)]
    simp
  · intro h
    rw [List.count_append, List.count_append, List.count_append, List.count_append,
      List.count_append, count_release_if _ im,
      count_release_if_other _ c.program _ (by simp), count_kernel_releases_other _ _ (by simp),
      count_release_if_other _ _ _ (by simp), count_release_if_other _ _ _ (by simp),
      count_release_if_other _ _ _ (by simp)]
    simp
  · intro h
    rw [List.count_append, List.count_append, List.count_append, List.count_append,
      List.count_append, count_kernel_releases,
      count_release_if_other _ c.program _ (by simp),
      count_release_if_other _ c.result_array_buf _ (by simp),
      count_release_if_other _ _ _ (by simp), count_release_if_other _ _ _ (by simp),
      count_release_if_other _ _ _ (by simp)]
    simp
  · intro h
    rw [List.count_append, List.count_append, List.count_append, List.count_append,
      List.count_append, count_release_if _ ic,
      count_release_if_other _ c.program _ (by simp),
      count_release_if_other _ c.result_array_buf _ (by simp),
      count_kernel_releases_other _ _ (by simp),
      count_release_if_other _ _ _ (by simp), count_release_if_other _ _ _ (by simp)]
    simp
  · intro h
    rw [List.count_append, List.count_append, List.count_append, List.count_append,
      List.count_append, count_release_if _ iq,
      count_release_if_other _ c.program _ (by simp),
      count_release_if_other _ c.result_array_buf _ (by simp),
      count_kernel_releases_other _ _ (by simp),
      count_release_if_other _ c.context _ (by simp), count_release_if_other _ _ _ (by simp)]
    simp
  · intro h
    rw [List.count_append, List.count_append, List.count_append, List.count_append,
      List.count_append, count_release_if _ id,
      count_release_if_other _ c.program _ (by simp),
      count_release_if_other _ c.result_array_buf _ (by simp),
      count_kernel_releases_other _ _ (by simp),
      count_release_if_other _ c.context _ (by simp),
      count_release_if_other _ c.command_queue _ (by simp)]
    simp
  · intro call hcall
    simp only [List.mem_append, List.mem_flatMap] at hcall
    rcases hcall with ((((hc | hc) | ⟨k, _, hc⟩) | hc) | hc) | hc <;>
      obtain ⟨x, rfl⟩ := mem_release_if _ _ _ hc <;> rfl
  · simp only [List.length_append, length_release_if, length_kernel_releases,
      gpu_context.acquired_count]

/-- C7. Whatever context `setup_gpu_context` returns, whether it stopped at
device selection, context or queue creation, program creation or build, a
kernel creation or the buffer creation, or ran to the end, `~gpu_context`
releases exactly what that context holds: every non-null handle field once,
every non-null kernel slot once, and nothing for a null field or slot. -/
theorem teardown_after_setup (w : OpenCL) (sources_list kernel_names : List String)
    (N M : Nat) (r : Outcome)
    (_h : setup_gpu_context w sources_list kernel_names N M = some r) :
    releases_exactly_acquired r.context r.context.destructor :=
  destructor_releases_exactly_acquired r.context

/-- C7 on the run of `main` in which every call succeeds. -/
theorem teardown_after_setup_witness :
    setup_gpu_context (runtime_with mixed_devices) main_sources main_kernels 480 640
        = some main_outcome
      ∧ releases_exactly_acquired main_outcome.context main_outcome.context.destructor :=
  ⟨by decide,
   teardown_after_setup (runtime_with mixed_devices) main_sources main_kernels 480 640
     main_outcome (by decide)⟩

/-- Return value of `setup_gpu_context` and release calls of the destructor
when a failure is injected at each call in turn, for two kernel names. -/
theorem teardown_after_injected_failure :
    ((setup_gpu_context (runtime_failing_at 0) main_sources ["mandelbrot", "julia"] 480 640).map
        fun r => (r.ret, r.context.destructor)) = some (-1001, [])
      ∧ ((setup_gpu_context (runtime_failing_at 1) main_sources ["mandelbrot", "julia"] 480
          640).map fun r => (r.ret, r.context.destructor))
        = some (-5, [CLCall.clReleaseDevice 3])
      ∧ ((setup_gpu_context (runtime_failing_at 2) main_sources ["mandelbrot", "julia"] 480
          640).map fun r => (r.ret, r.context.destructor))
        = some (-5, [CLCall.clReleaseContext 1000, CLCall.clReleaseDevice 3])
      ∧ ((setup_gpu_context (runtime_failing_at 3) main_sources ["mandelbrot", "julia"] 480
          640).map fun r => (r.ret, r.context.destructor))
        = some (-6, [CLCall.clReleaseContext 1000, CLCall.clReleaseCommandQueue 1001,
            CLCall.clReleaseDevice 3])
      ∧ ((setup_gpu_context (runtime_failing_at 4) main_sources ["mandelbrot", "julia"] 480
          640).map fun r => (r.ret, r.context.destructor))
        = some (-11, [CLCall.clReleaseProgram 1002, CLCall.clReleaseContext 1000,
            CLCall.clReleaseCommandQueue 1001, CLCall.clReleaseDevice 3])
      ∧ ((setup_gpu_context (runtime_failing_at 5) main_sources ["mandelbrot", "julia"] 480
          640).map fun r => (r.ret, r.context.kernels, r.context.destructor))
        = some (-46, [none], [CLCall.clReleaseProgram 1002, CLCall.clReleaseContext 1000,
            CLCall.clReleaseCommandQueue 1001, CLCall.clReleaseDevice 3])
      ∧ ((setup_gpu_context (runtime_failing_at 7) main_sources ["mandelbrot", "julia"] 480
          640).map fun r => (r.ret, r.context.kernels, r.context.destructor))
        = some (-46, [some 2000, none], [CLCall.clReleaseProgram 1002,
            CLCall.clReleaseKernel 2000, CLCall.clReleaseContext 1000,
            CLCall.clReleaseCommandQueue 1001, CLCall.clReleaseDevice 3])
      ∧ ((setup_gpu_context (runtime_failing_at 6) main_sources ["mandelbrot", "julia"] 480
          640).map fun r => (r.ret, r.context.destructor))
        = some (-4, [CLCall.clReleaseProgram 1002, CLCall.clReleaseKernel 2000,
            CLCall.clReleaseKernel 2001, CLCall.clReleaseContext 1000,
            CLCall.clReleaseCommandQueue 1001, CLCall.clReleaseDevice 3])
      ∧ ((setup_gpu_context (runtime_failing_at 9) main_sources ["mandelbrot", "julia"] 480
          640).map fun r => (r.ret, r.context.destructor))
        = some (0, [CLCall.clReleaseProgram 1002, CLCall.clReleaseMemObject 1003,
            CLCall.clReleaseKernel 2000, CLCall.clReleaseKernel 2001,
            CLCall.clReleaseContext 1000, CLCall.clReleaseCommandQueue 1001,
            CLCall.clReleaseDevice 3]) :=
  ⟨by decide, by decide, by decide, by decide, by decide, by decide, by decide, by decide,
   by decide⟩

/-- C8, as the code has it. For a context in which the program, the output
buffer, every kernel slot, the context, the command queue and the device are
all non-null, `~gpu_context` releases the program first, then the output
buffer, then the kernels in the order of `kernels`, then the context, then the
command queue, then the device. -/
theorem teardown_order (c : gpu_context) (program buffer context queue device : Nat)
    (kernels : List Nat)
    (hp : c.program = some program) (hb : c.result_array_buf = some buffer)
    (hk : c.kernels = kernels.map some) (hc : c.context = some context)
    (hq : c.command_queue = some queue) (hd : c.selected_device = some device) :
    c.destructor
      = [CLCall.clReleaseProgram program, CLCall.clReleaseMemObject buffer]
          ++ kernels.map CLCall.clReleaseKernel
          ++ [CLCall.clReleaseContext context, CLCall.clReleaseCommandQueue queue,
              CLCall.clReleaseDevice device] := by
  have hks : ∀ ks : List Nat, (ks.map some).flatMap (release_if CLCall.clReleaseKernel)
      = ks.map CLCall.clReleaseKernel := by
    intro ks
    induction ks with
    | nil => rfl
    | cons k ks ih => rw [List.map_cons, List.flatMap_cons, ih]; rfl
  simp [gpu_context.destructor, hp, hb, hk, hc, hq, hd, hks, release_if]

/-- C8 on the context of the run of `main` in which every call succeeds. -/
theorem teardown_order_witness :
    main_outcome.context.program = some 1002
      ∧ main_outcome.context.result_array_buf = some 1003
      ∧ main_outcome.context.kernels = [2000].map some
      ∧ main_outcome.context.context = some 1000
      ∧ main_outcome.context.command_queue = some 1001
      ∧ main_outcome.context.selected_device = some 3
      ∧ main_outcome.context.destructor
          = [CLCall.clReleaseProgram 1002, CLCall.clReleaseMemObject 1003]
              ++ [2000].map CLCall.clReleaseKernel
              ++ [CLCall.clReleaseContext 1000, CLCall.clReleaseCommandQueue 1001,
                  CLCall.clReleaseDevice 3] :=
  ⟨rfl, rfl, rfl, rfl, rfl, rfl,
   teardown_order main_outcome.context 1002 1003 1000 1001 3 [2000] rfl rfl rfl rfl rfl rfl⟩

/-- C8 as stated fails on the fully acquired context of the run of `main`: the
first release call is `clReleaseProgram`, ahead of the output buffer and the
kernel, so the call sequence is not the one the claim gives. -/
theorem teardown_releases_program_first :
    setup_gpu_context (runtime_with mixed_devices) main_sources main_kernels 480 640
        = some main_outcome
      ∧ main_outcome.ret = 0
      ∧ main_outcome.context.destructor
          = [CLCall.clReleaseProgram 1002, CLCall.clReleaseMemObject 1003,
             CLCall.clReleaseKernel 2000, CLCall.clReleaseContext 1000,
             CLCall.clReleaseCommandQueue 1001, CLCall.clReleaseDevice 3]
      ∧ spec_teardown_order main_outcome.context
          = [CLCall.clReleaseMemObject 1003, CLCall.clReleaseKernel 2000,
             CLCall.clReleaseProgram 1002, CLCall.clReleaseContext 1000,
             CLCall.clReleaseCommandQueue 1001, CLCall.clReleaseDevice 3]
      ∧ main_outcome.context.destructor ≠ spec_teardown_order main_outcome.context := by
  decide

/-! ## Building the program -/

theorem load_sources_of_empty (w : OpenCL) (paths : List String) :
    ∀ sources : List String, (∃ path ∈ paths, w.load_source_file path = "") →
      load_sources w sources paths = none := by
  induction paths with
  | nil => intro _ h; simp at h
  | cons a l ih =>
    intro sources h
    by_cases ha : w.load_source_file a = ""
    · simp [load_sources, ha]
    · have hl : ∃ path ∈ l, w.load_source_file path = "" := by
        obtain ⟨path, hmem, hpath⟩ := h
        rcases List.mem_cons.1 hmem with rfl | hmem
        · exact absurd hpath ha
        · exact ⟨path, hmem, hpath⟩
      simp [load_sources, ha, ih _ hl]

theorem load_sources_of_nonempty (w : OpenCL) (paths : List String) :
    ∀ sources : List String, (∀ path ∈ paths, w.load_source_file path ≠ "") →
      load_sources w sources paths = some (sources ++ paths.map w.load_source_file) := by
  induction paths with
  | nil => intro sources _; simp [load_sources]
  | cons a l ih =>
    intro sources h
    have ha : w.load_source_file a ≠ "" := h a (List.mem_cons_self _ _)
    simp [load_sources, ha, ih _ fun path hp => h path (List.mem_cons_of_mem _ hp)]

/-- C9. When the assertions of `load_program` hold and some path of the list,
at any position, reads as the empty string, `load_program` returns -1, issues
no call at all (so neither `clCreateProgramWithSource` nor `clBuildProgram`),
and leaves the context, `program` included, as it found it. -/
theorem load_program_fails_fast (w : OpenCL) (context : gpu_context) (paths : List String)
    (dev ctx : Nat) (hd : context.selected_device = some dev) (hc : context.context = some ctx)
    (hempty : ∃ path ∈ paths, w.load_source_file path = "") :
    load_program w context paths = some { ret := -1, context := context, calls := [] } := by
  simp [load_program, hd, hc, load_sources_of_empty w paths [] hempty]

/-- C9 on the sources of `main` when `kernel.cl`, the second path, reads as
empty: the program field stays null. -/
theorem load_program_fails_fast_witness :
    selected_context.selected_device = some 3
      ∧ selected_context.context = some 1000
      ∧ (∃ path ∈ main_sources, (runtime_failing_at 8).load_source_file path = "")
      ∧ load_program (runtime_failing_at 8) selected_context main_sources
          = some { ret := -1, context := selected_context, calls := [] }
      ∧ selected_context.program = none :=
  ⟨rfl, rfl, ⟨"kernel.cl", by decide, by decide⟩,
   load_program_fails_fast (runtime_failing_at 8) selected_context main_sources 3 1000 rfl rfl
     ⟨"kernel.cl", by decide, by decide⟩,
   rfl⟩

/-- C10. Suppose the assertions of `load_program` hold, every source reads as
non-empty, `clCreateProgramWithSource` succeeds and `clBuildProgram` fails with
a code `b`, that is, a non-zero one. Then `load_program` returns, and never 0: when the
log-length probe fails it returns the probe's code after the three calls
create, build, probe; when the probe succeeds and the fetch fails it returns
the fetch's code; when both succeed it returns `b`. -/
theorem load_program_build_failure (w : OpenCL) (context : gpu_context) (paths : List String)
    (dev ctx : Nat) (hd : context.selected_device = some dev) (hc : context.context = some ctx)
    (hs : ∀ path ∈ paths, w.load_source_file path ≠ "")
    (hcreate : (w.clCreateProgramWithSource ctx (paths.map w.load_source_file)).2 = 0)
    (hb : w.clBuildProgram (w.clCreateProgramWithSource ctx (paths.map w.load_source_file)).1
      dev ≠ 0) :
    ∃ r, load_program w context paths = some r
      ∧ r.ret ≠ 0
      ∧ ((w.build_log_probe
            (w.clCreateProgramWithSource ctx (paths.map w.load_source_file)).1 dev).1 ≠ 0 →
          r.ret = (w.build_log_probe
              (w.clCreateProgramWithSource ctx (paths.map w.load_source_file)).1 dev).1
            ∧ r.calls
              = [CLCall.clCreateProgramWithSource ctx (paths.map w.load_source_file),
                 CLCall.clBuildProgram
                   (w.clCreateProgramWithSource ctx (paths.map w.load_source_file)).1 dev,
                 CLCall.clGetProgramBuildInfo
                   (w.clCreateProgramWithSource ctx (paths.map w.load_source_file)).1 dev 0
                   false])
      ∧ ((w.build_log_probe
            (w.clCreateProgramWithSource ctx (paths.map w.load_source_file)).1 dev).1 = 0 →
          w.build_log_fetch (w.clCreateProgramWithSource ctx (paths.map w.load_source_file)).1
            dev (w.build_log_probe
              (w.clCreateProgramWithSource ctx (paths.map w.load_source_file)).1 dev).2 ≠ 0 →
          r.ret = w.build_log_fetch
            (w.clCreateProgramWithSource ctx (paths.map w.load_source_file)).1
            dev (w.build_log_probe
              (w.clCreateProgramWithSource ctx (paths.map w.load_source_file)).1 dev).2)
      ∧ ((w.build_log_probe
            (w.clCreateProgramWithSource ctx (paths.map w.load_source_file)).1 dev).1 = 0 →
          w.build_log_fetch (w.clCreateProgramWithSource ctx (paths.map w.load_source_file)).1
            dev (w.build_log_probe
              (w.clCreateProgramWithSource ctx (paths.map w.load_source_file)).1 dev).2 = 0 →
          r.ret = w.clBuildProgram
            (w.clCreateProgramWithSource ctx (paths.map w.load_source_file)).1 dev) := by
  have hload := load_sources_of_nonempty w paths [] hs
  rw [List.nil_append] at hload
  by_cases hp : (w.build_log_probe
      (w.clCreateProgramWithSource ctx (paths.map w.load_source_file)).1 dev).1 = 0
  · by_cases hf : w.build_log_fetch
        (w.clCreateProgramWithSource ctx (paths.map w.load_source_file)).1
        dev (w.build_log_probe
          (w.clCreateProgramWithSource ctx (paths.map w.load_source_file)).1 dev).2 = 0
    · have hrun : ∃ c calls, load_program w context paths = some
          ⟨w.clBuildProgram (w.clCreateProgramWithSource ctx (paths.map w.load_source_file)).1
            dev, c, calls⟩ := by
        simp only [load_program, hd, hc, hload, hcreate, hb, hp, hf, ne_eq,
          not_true_eq_false, not_false_eq_true, if_true, if_false]
        exact ⟨_, _, rfl⟩
      obtain ⟨c, calls, hrun⟩ := hrun
      exact ⟨_, hrun, hb, fun h => absurd hp h, fun _ h => absurd hf h, fun _ _ => rfl⟩
    · have hrun : ∃ c calls, load_program w context paths = some
          ⟨w.build_log_fetch (w.clCreateProgramWithSource ctx (paths.map w.load_source_file)).1
            dev (w.build_log_probe
              (w.clCreateProgramWithSource ctx (paths.map w.load_source_file)).1 dev).2,
            c, calls⟩ := by
        simp only [load_program, hd, hc, hload, hcreate, hb, hp, hf, ne_eq,
          not_true_eq_false, not_false_eq_true, if_true, if_false]
        exact ⟨_, _, rfl⟩
      obtain ⟨c, calls, hrun⟩ := hrun
      exact ⟨_, hrun, hf, fun h => absurd hp h, fun _ _ => rfl, fun _ h => absurd h hf⟩
  · have hrun : ∃ c, load_program w context paths = some
        ⟨(w.build_log_probe
            (w.clCreateProgramWithSource ctx (paths.map w.load_source_file)).1 dev).1, c,
          [CLCall.clCreateProgramWithSource ctx (paths.map w.load_source_file),
           CLCall.clBuildProgram
             (w.clCreateProgramWithSource ctx (paths.map w.load_source_file)).1 dev,
           CLCall.clGetProgramBuildInfo
             (w.clCreateProgramWithSource ctx (paths.map w.load_source_file)).1 dev 0
             false]⟩ := by
      simp only [load_program, hd, hc, hload, hcreate, hb, hp, ne_eq,
        not_true_eq_false, not_false_eq_true, if_true, if_false]
      exact ⟨_, rfl⟩
    obtain ⟨c, hrun⟩ := hrun
    exact ⟨_, hrun, hp, fun _ => ⟨rfl, rfl⟩, fun h => absurd h hp, fun h => absurd h hp⟩

/-- C10 on the sources of `main` when `clBuildProgram` fails with -11 and both
log queries succeed: `load_program` returns -11. -/
theorem load_program_build_failure_witness :
    selected_context.selected_device = some 3
      ∧ selected_context.context = some 1000
      ∧ (∀ path ∈ main_sources, (runtime_failing_at 4).load_source_file path ≠ "")
      ∧ (runtime_failing_at 4).clBuildProgram (some 1002) 3 = -11
      ∧ (∃ r, load_program (runtime_failing_at 4) selected_context main_sources = some r
          ∧ r.ret = -11) :=
  ⟨rfl, rfl, by decide, rfl,
   (load_program_build_failure (runtime_failing_at 4) selected_context main_sources 3 1000
      rfl rfl (by decide) (by decide) (by decide)).imp
     fun _ hr => ⟨hr.1, hr.2.2.2.2 (by decide) (by decide)⟩⟩

end MandelbrotOCL
